import Mathlib

/-!
# k8s-sec-check: the polling and gateway helpers of `util/util.go`

A shallow embedding of the helper functions of package `util`
(`GetStatusCondition`, `CheckReadyReplicas`, `IsPrivilegedContainerCreated`,
the create and delete helpers, the process configuration), of the workload
builders of `tests/resource.go` and of the assertions and teardowns of the
scenarios in `tests/`, together with theorems about them.

Conventions of the embedding.

* The `clientset kubernetes.Interface` argument is represented by the responses
  of the one gateway operation the function invokes.  A response may depend on
  how many calls were made before it, so an operation that is called in a loop
  is a function of the call index (0 for the first call) and of the request.
* A Go result pair `(value, error)` of a gateway call is `ok value` or
  `fail ... err`: client-go returns a non-nil object together with a nil error.
* Every run records the gateway calls and the `time.Sleep` calls it makes, in
  order, as a list of events.  Log output is not recorded.
* The loop counter `i` of `for i := 0; i <= retryCount; i++` is an unbounded
  natural number; the body runs for `i = 0, ..., retryCount`.
-/

namespace K8sSecCheck

/-! ## Data model -/

/-- A Go `error` value as a caller can observe it: the text returned by
`Error()` and the API status reason that `kerr.ReasonForError` extracts from it
(the empty string, `StatusReasonUnknown`, for an error that is not an API
status). -/
structure GoError where
  message : String
  reason : String
deriving DecidableEq, Repr

/-- The error built by `errors.New(msg)`: a plain error, not an API status. -/
def errorsNew (msg : String) : GoError := ⟨msg, ""⟩

/-- The constant `metav1.StatusReasonNotFound`. -/
def StatusReasonNotFound : String := "NotFound"

/-- The predicate `kerr.IsNotFound(err)`, for a non-nil `err`:
`ReasonForError(err) == metav1.StatusReasonNotFound`. -/
def IsNotFound (err : GoError) : Bool := err.reason == StatusReasonNotFound

/-- One entry of `ReplicaSetStatus.Conditions`; `Type_` is the Go field `Type`. -/
structure ReplicaSetCondition where
  Type_ : String
  Status : String
  Reason : String
  Message : String
deriving DecidableEq, Repr

/-- The part of `v1beta1.ReplicaSetStatus` the helpers read. -/
structure ReplicaSetStatus where
  Conditions : List ReplicaSetCondition
deriving DecidableEq, Repr

/-- The part of `v1beta1.ReplicaSet` the helpers read. -/
structure ReplicaSet where
  Name : String
  Status : ReplicaSetStatus
deriving DecidableEq, Repr

/-- The type `v1beta1.ReplicaSetList`. -/
structure ReplicaSetList where
  Items : List ReplicaSet
deriving DecidableEq, Repr

/-- The result pair of `ReplicaSets(ns).List(opts)`: on success a list and a
nil error, on failure the error together with whatever list pointer the client
hands back (possibly nil). -/
inductive ListResult where
  | ok (rsList : ReplicaSetList)
  | fail (rsList : Option ReplicaSetList) (err : GoError)
deriving DecidableEq, Repr

/-- The part of `appsv1.DeploymentSpec` that `CheckReadyReplicas` reads:
`Replicas` is a `*int32`, `none` being the nil pointer. -/
structure DeploymentSpec where
  Replicas : Option Int
deriving DecidableEq, Repr

/-- The part of `appsv1.DeploymentStatus` that `CheckReadyReplicas` reads. -/
structure DeploymentStatus where
  ReadyReplicas : Int
deriving DecidableEq, Repr

/-- The part of `appsv1.Deployment` that `CheckReadyReplicas` reads. -/
structure Deployment where
  Spec : DeploymentSpec
  Status : DeploymentStatus
deriving DecidableEq, Repr

/-- The result pair of `Deployments(ns).Get(name, opts)`. -/
inductive GetResult where
  | ok (deployment : Deployment)
  | fail (err : GoError)
deriving DecidableEq, Repr

/-- The values of `metav1.DeletionPropagation`. -/
inductive DeletionPropagation where
  | Orphan
  | Background
  | Foreground
deriving DecidableEq, Repr

/-- The type `metav1.DeleteOptions`, reduced to the field the helpers set. -/
structure DeleteOptions where
  PropagationPolicy : Option DeletionPropagation
deriving DecidableEq, Repr

/-- An observable step of a run: a gateway call with its request, or a sleep
of the given number of seconds. -/
inductive Event where
  | listReplicaSets (targetNamespace labelSelector : String)
  | getDeployment (targetNamespace deploymentName : String)
  | sleep (seconds : Nat)
deriving DecidableEq, Repr

/-- How a call ends: it returns a value, or it stops in a run-time panic
(a nil pointer dereference). -/
inductive Completion (α : Type) where
  | returned (value : α)
  | panicked
deriving DecidableEq, Repr

/-- A finished call: how it ended and the events it performed, in order. -/
structure Run (α : Type) where
  result : α
  trace : List Event
deriving DecidableEq, Repr

/-- The number of `List` calls on replica sets in a trace. -/
def countQueries (tr : List Event) : Nat :=
  (tr.filter fun ev => match ev with
    | .listReplicaSets _ _ => true
    | _ => false).length

/-- The number of `Get` calls on deployments in a trace. -/
def countFetches (tr : List Event) : Nat :=
  (tr.filter fun ev => match ev with
    | .getDeployment _ _ => true
    | _ => false).length

/-- The number of `time.Sleep` calls in a trace. -/
def countSleeps (tr : List Event) : Nat :=
  (tr.filter fun ev => match ev with
    | .sleep _ => true
    | _ => false).length

/-- The total number of seconds slept in a trace. -/
def sleepSeconds : List Event → Nat
  | [] => 0
  | .sleep s :: tr => s + sleepSeconds tr
  | _ :: tr => sleepSeconds tr

/-! ## `DeleteDeployment` and `DeletePod` -/

/-- The function `DeleteDeployment` of `util.go`.  `delete ns name opts` is the
error returned by `clientset.AppsV1().Deployments(ns).Delete(name, opts)`
(`none` for nil). -/
def DeleteDeployment (delete : String → String → DeleteOptions → Option GoError)
    (deploymentName targetNamespace : String) : Option GoError :=
  let propagationPolicy := DeletionPropagation.Foreground
  match delete targetNamespace deploymentName ⟨some propagationPolicy⟩ with
  | some err =>
    if !IsNotFound err then
      some (errorsNew ("Failed to delete deployment: " ++ err.message))
    else none
  | none => none

/-- The function `DeletePod` of `util.go`.  `delete ns name opts` is the error
returned by `clientset.CoreV1().Pods(ns).Delete(name, opts)`. -/
def DeletePod (delete : String → String → DeleteOptions → Option GoError)
    (podName targetNamespace : String) : Option GoError :=
  let propagationPolicy := DeletionPropagation.Foreground
  match delete targetNamespace podName ⟨some propagationPolicy⟩ with
  | some err =>
    if !IsNotFound err then
      some (errorsNew ("Failed to delete pod: " ++ err.message))
    else none
  | none => none

/-! ## `CheckReadyReplicas` -/

/-- The loop of `CheckReadyReplicas`: `left` iterations remain, `i` is the loop
counter (the number of `Get` calls made so far) and `tr` the events so far.
Each iteration fetches the deployment, returns the wrapped error if the fetch
failed, otherwise sleeps 30 seconds and then compares
`deployment.Status.ReadyReplicas` with `*deployment.Spec.Replicas`. -/
def CheckReadyReplicas.loop (get : Nat → String → String → GetResult)
    (deploymentName targetNamespace : String) :
    Nat → Nat → List Event → Run (Completion (Option GoError))
  | 0, _, tr =>
    ⟨.returned (some (errorsNew ("CheckReadyReplicas status failed even after multiple " ++
      "retryCount for deployment " ++ deploymentName))), tr⟩
  | left + 1, i, tr =>
    match get i targetNamespace deploymentName with
    | .fail err =>
      ⟨.returned (some (errorsNew ("Failed to get deployment: " ++ err.message))),
        tr ++ [.getDeployment targetNamespace deploymentName]⟩
    | .ok deployment =>
      let tr' := tr ++ [.getDeployment targetNamespace deploymentName, .sleep 30]
      match deployment.Spec.Replicas with
      | none => ⟨.panicked, tr'⟩
      | some replicas =>
        if deployment.Status.ReadyReplicas = replicas then ⟨.returned none, tr'⟩
        else CheckReadyReplicas.loop get deploymentName targetNamespace left (i + 1) tr'

/-- The function `CheckReadyReplicas` of `util.go`.  `get i ns name` is the
result of the call number `i` of `Deployments(ns).Get(name, ...)`.  The loop
`for i := 0; i <= retryCount; i++` runs `retryCount + 1` times when
`retryCount` is not negative and not at all otherwise. -/
def CheckReadyReplicas (get : Nat → String → String → GetResult)
    (deploymentName targetNamespace : String) (retryCount : Int) :
    Run (Completion (Option GoError)) :=
  CheckReadyReplicas.loop get deploymentName targetNamespace (retryCount + 1).toNat 0 []

/-! ## `GetStatusCondition` -/

/-- The function `ReplicaSetsByLabel` of `util.go`: the `List` call with the
given label selector in the given namespace.  `list i ns selector` is the
result of the call number `i` of `ReplicaSets(ns).List(...)`. -/
def ReplicaSetsByLabel (list : Nat → String → String → ListResult) (i : Nat)
    (labelSelectorValue targetNamespace : String) : ListResult :=
  list i targetNamespace labelSelectorValue

/-- The test `len(rsList.Items) != 0 && len(rsList.Items[0].Status.Conditions) != 0`
of `GetStatusCondition`; the second operand is evaluated only for a non-empty
list. -/
def hasStatusCondition (rsList : ReplicaSetList) : Bool :=
  match rsList.Items with
  | [] => false
  | rs :: _ => rs.Status.Conditions.length != 0

/-- The local constant `retryCount := 3` of `GetStatusCondition`. -/
def GetStatusCondition.retryCount : Nat := 3

/-- The text of the error `GetStatusCondition` returns after the last attempt. -/
def GetStatusCondition.exhaustedMessage : String :=
  "failed to fetch the replicaset status condition" ++ " after multiple attempts"

/-- The loop of `GetStatusCondition`: `left` iterations remain, `i` is the loop
counter (the number of queries made so far) and `tr` the events so far.  Each
iteration queries the replica sets labelled `k8s-app=<deploymentName>`, returns
the pair `rsList, err` as it is if the query failed, otherwise sleeps 30
seconds and then tests the list fetched before the sleep. -/
def GetStatusCondition.loop (list : Nat → String → String → ListResult)
    (TargetNamespace deploymentName : String) :
    Nat → Nat → List Event → Run (Option ReplicaSetList × Option GoError)
  | 0, _, tr => ⟨(none, some (errorsNew GetStatusCondition.exhaustedMessage)), tr⟩
  | left + 1, i, tr =>
    match ReplicaSetsByLabel list i ("k8s-app=" ++ deploymentName) TargetNamespace with
    | .fail rsList err =>
      ⟨(rsList, some err), tr ++ [.listReplicaSets TargetNamespace ("k8s-app=" ++ deploymentName)]⟩
    | .ok rsList =>
      let tr' := tr ++ [.listReplicaSets TargetNamespace ("k8s-app=" ++ deploymentName), .sleep 30]
      if hasStatusCondition rsList then ⟨(some rsList, none), tr'⟩
      else GetStatusCondition.loop list TargetNamespace deploymentName left (i + 1) tr'

/-- The function `GetStatusCondition` of `util.go`.  `TargetNamespace` is the
package variable of that name; the result is the returned pair
`(*ReplicaSetList, error)`. -/
def GetStatusCondition (list : Nat → String → String → ListResult)
    (TargetNamespace deploymentName : String) :
    Run (Option ReplicaSetList × Option GoError) :=
  GetStatusCondition.loop list TargetNamespace deploymentName
    (GetStatusCondition.retryCount + 1) 0 []

/-! ## Vocabulary of the statements -/

/-- A query result is condition-bearing when it holds a resource and that
(first) resource carries at least one status condition. -/
def ConditionBearing (rsList : ReplicaSetList) : Prop :=
  ∃ rs, rsList.Items.head? = some rs ∧ rs.Status.Conditions ≠ []

/-- A fetched deployment meets the readiness criterion when its ready-replica
count equals its desired replica count. -/
def ReadyEqualsDesired (d : Deployment) : Prop :=
  d.Spec.Replicas = some d.Status.ReadyReplicas

/-- The events of `n` successful but unmatched attempts of `GetStatusCondition`:
a query followed by a sleep, `n` times. -/
def pollEvents (TargetNamespace deploymentName : String) (n : Nat) : List Event :=
  (List.replicate n [Event.listReplicaSets TargetNamespace ("k8s-app=" ++ deploymentName),
    Event.sleep 30]).flatten

/-- The events of `n` successful attempts of `CheckReadyReplicas`: a fetch
followed by a sleep, `n` times. -/
def fetchEvents (targetNamespace deploymentName : String) (n : Nat) : List Event :=
  (List.replicate n [Event.getDeployment targetNamespace deploymentName,
    Event.sleep 30]).flatten

/-! ## Sample inputs -/

/-- The status condition a replica set carries once its pods were rejected. -/
def rejectedCondition : ReplicaSetCondition :=
  ⟨"ReplicaFailure", "True", "FailedCreate",
    "pods are forbidden: Privileged containers are not allowed"⟩

/-- A replica set with one status condition. -/
def rejectedReplicaSet : ReplicaSet := ⟨"nginx-7c68b45968", ⟨[rejectedCondition]⟩⟩

/-- A second replica set with one status condition. -/
def otherReplicaSet : ReplicaSet := ⟨"nginx-5d59d67564", ⟨[rejectedCondition]⟩⟩

/-- A replica set without a status condition. -/
def pendingReplicaSet : ReplicaSet := ⟨"nginx-7c68b45968", ⟨[]⟩⟩

/-- A gateway whose first three queries find nothing and whose later queries
find one replica set with one condition. -/
def listAfterThreeEmpty : Nat → String → String → ListResult :=
  fun i _ _ => if i < 3 then .ok ⟨[]⟩ else .ok ⟨[rejectedReplicaSet]⟩

/-- A gateway whose queries always find nothing. -/
def listAlwaysEmpty : Nat → String → String → ListResult :=
  fun _ _ _ => .ok ⟨[]⟩

/-- A gateway whose queries always find the same given replica sets. -/
def listAlways (items : List ReplicaSet) : Nat → String → String → ListResult :=
  fun _ _ _ => .ok ⟨items⟩

/-- A gateway whose first query fails with the given error and whose later
queries would find one replica set with one condition. -/
def listFailsFirst (err : GoError) : Nat → String → String → ListResult :=
  fun i _ _ => if i = 0 then .fail none err else .ok ⟨[rejectedReplicaSet]⟩

/-- A gateway error: the API server is not reachable. -/
def connectionRefused : GoError := ⟨"dial tcp 10.0.0.1:443: connect: connection refused", ""⟩

/-- A fetched deployment is not yet ready when it has a desired replica count
and its ready-replica count differs from it. -/
def NotYetReady (d : Deployment) : Prop :=
  ∃ r, d.Spec.Replicas = some r ∧ d.Status.ReadyReplicas ≠ r

/-- Attempt number `k` (counted from 1) is the first at which the fetched
deployment meets the readiness criterion: fetch `k` succeeds and shows ready
replicas equal to desired replicas, and every earlier fetch succeeds and shows
a desired replica count that the ready-replica count does not equal. -/
def FirstReadyAt (get : Nat → String → String → GetResult)
    (deploymentName targetNamespace : String) (k : Nat) : Prop :=
  1 ≤ k ∧
  (∃ d, get (k - 1) targetNamespace deploymentName = .ok d ∧ ReadyEqualsDesired d) ∧
  ∀ j, j + 1 < k → ∃ d, get j targetNamespace deploymentName = .ok d ∧ NotYetReady d

/-- The API status error for a resource that does not exist. -/
def notFoundError : GoError := ⟨"deployments.apps nginx not found", "NotFound"⟩

/-- The API status error for a request the caller may not make. -/
def forbiddenError : GoError := ⟨"deployments.apps nginx is forbidden", "Forbidden"⟩

/-- A gateway whose fetches show 2 desired replicas, none of them ready during
the first `n` fetches and all of them ready afterwards. -/
def getReadyAfter (n : Nat) : Nat → String → String → GetResult :=
  fun i _ _ => .ok ⟨⟨some 2⟩, ⟨if i < n then 0 else 2⟩⟩

/-- A gateway whose fetches always show 2 desired replicas and none ready. -/
def getNeverReady : Nat → String → String → GetResult :=
  fun _ _ _ => .ok ⟨⟨some 2⟩, ⟨0⟩⟩

/-- A gateway whose first fetch shows 2 desired replicas and none ready, and
whose second fetch fails with the given error. -/
def getFailsSecond (err : GoError) : Nat → String → String → GetResult :=
  fun i _ _ => if i = 1 then .fail err else .ok ⟨⟨some 2⟩, ⟨0⟩⟩

/-! ## Process configuration -/

/-- The constant `defaultNamespace` of `util.go`. -/
def defaultNamespace : String := "k8s-sec-check"

/-- The constant `defaultServiceAccount` of `util.go`. -/
def defaultServiceAccount : String := "k8s-sec-check"

/-- The function `os.Getenv`: the value of the variable `key` in the process
environment `env`, the empty string when the variable is not set. -/
def Getenv (env : String → Option String) (key : String) : String :=
  (env key).getD ""

/-- The function `getTargetNamespace` of `util.go`, for the process environment
`env`. -/
def getTargetNamespace (env : String → Option String) : String :=
  let targetNamespace := Getenv env "KUBE_NAMESPACE"
  if targetNamespace != "" then targetNamespace else defaultNamespace

/-- The function `getTargetServiceAccount` of `util.go`, for the process
environment `env`. -/
def getTargetServiceAccount (env : String → Option String) : String :=
  let targetServiceAccount := Getenv env "KUBE_SERVICEACCOUNT"
  if targetServiceAccount != "" then targetServiceAccount else defaultServiceAccount

/-! ## `IsPrivilegedContainerCreated` -/

/-- The function `strings.Contains(s, substr)`: `substr` occurs in `s` as a
contiguous run.  Strings are sequences of characters here; for the valid UTF-8
texts the gateway produces this is the byte-wise test Go makes. -/
def stringsContains (s substr : String) : Bool :=
  decide (substr.data <:+: s.data)

/-- The constant `v1beta1.ReplicaSetReplicaFailure`. -/
def ReplicaSetReplicaFailure : String := "ReplicaFailure"

/-- The inner loop of `IsPrivilegedContainerCreated` over the conditions of one
replica set: `some false` when the loop body returns `false`, `none` when the
loop ends without returning. -/
def IsPrivilegedContainerCreated.conditions (statusReason statusCondition : String) :
    List ReplicaSetCondition → Option Bool
  | [] => none
  | cond :: rest =>
    if cond.Reason == statusReason &&
        cond.Type_ == ReplicaSetReplicaFailure &&
        stringsContains cond.Message statusCondition then
      some false
    else IsPrivilegedContainerCreated.conditions statusReason statusCondition rest

/-- The outer loop of `IsPrivilegedContainerCreated` over `rsList.Items`. -/
def IsPrivilegedContainerCreated.items (statusReason statusCondition : String) :
    List ReplicaSet → Option Bool
  | [] => none
  | rs :: rest =>
    match IsPrivilegedContainerCreated.conditions statusReason statusCondition
        rs.Status.Conditions with
    | some b => some b
    | none => IsPrivilegedContainerCreated.items statusReason statusCondition rest

/-- The function `IsPrivilegedContainerCreated` of `util.go`.  `rsList` is a
pointer, `none` being nil, which the loop header dereferences. -/
def IsPrivilegedContainerCreated (rsList : Option ReplicaSetList)
    (statusReason statusCondition : String) : Completion Bool :=
  match rsList with
  | none => .panicked
  | some rsList =>
    match IsPrivilegedContainerCreated.items statusReason statusCondition rsList.Items with
    | some b => .returned b
    | none => .returned true

/-- The replica set list in which every condition has its `Status` field
replaced by `status`. -/
def withConditionStatus (status : String) (rsList : ReplicaSetList) : ReplicaSetList :=
  ⟨rsList.Items.map fun rs =>
    ⟨rs.Name, ⟨rs.Status.Conditions.map fun c => ⟨c.Type_, status, c.Reason, c.Message⟩⟩⟩⟩

/-- A process environment in which only `KUBE_NAMESPACE` is set. -/
def envWithNamespace : String → Option String :=
  fun key => if key = "KUBE_NAMESPACE" then some "security-checks" else none

/-! ## Workload objects and their builders (`tests/resource.go`) -/

/-- The type `metav1.ObjectMeta`, reduced to the fields the builders set; a Go
map is the list of its entries. -/
structure ObjectMeta where
  Name : String
  Namespace : String
  Labels : List (String × String)
deriving DecidableEq, Repr

/-- The type `metav1.LabelSelector`, reduced to `MatchLabels`. -/
structure LabelSelector where
  MatchLabels : List (String × String)
deriving DecidableEq, Repr

/-- The type `intstr.IntOrString`. -/
inductive IntOrString where
  | fromInt (val : Int)
  | fromString (val : String)
deriving DecidableEq, Repr

/-- The type `appsv1.RollingUpdateDeployment`; both fields are pointers. -/
structure RollingUpdateDeployment where
  MaxUnavailable : Option IntOrString
  MaxSurge : Option IntOrString
deriving DecidableEq, Repr

/-- The type `appsv1.DeploymentStrategy`; `Type_` is the Go field `Type`. -/
structure DeploymentStrategy where
  Type_ : String
  RollingUpdate : Option RollingUpdateDeployment
deriving DecidableEq, Repr

set_option linter.dupNamespace false in
/-- The type `v1.ContainerPort`, reduced to the fields the builders set. -/
structure ContainerPort where
  ContainerPort : Int
  Protocol : String
deriving DecidableEq, Repr

/-- The type `v1.ResourceRequirements`, reduced to `Limits`; a quantity is kept
as the text given to `resource.MustParse`. -/
structure ResourceRequirements where
  Limits : List (String × String)
deriving DecidableEq, Repr

/-- The type `v1.SecurityContext`, reduced to `Privileged`, a `*bool`. -/
structure SecurityContext where
  Privileged : Option Bool
deriving DecidableEq, Repr

/-- The type `v1.Container`, reduced to the fields the builders set. -/
structure Container where
  Name : String
  ImagePullPolicy : String
  Image : String
  Ports : List ContainerPort
  Resources : ResourceRequirements
  SecurityContext : Option SecurityContext
deriving DecidableEq, Repr

/-- The type `v1.PodSpec`, reduced to the fields the builders and the
privileged scenarios set. -/
structure PodSpec where
  Containers : List Container
  HostNetwork : Bool
  HostPID : Bool
  HostIPC : Bool
deriving DecidableEq, Repr

/-- The type `v1.PodTemplateSpec`. -/
structure PodTemplateSpec where
  ObjectMeta : ObjectMeta
  Spec : PodSpec
deriving DecidableEq, Repr

/-- The type `v1.Pod` as it is submitted: metadata and spec. -/
structure Pod where
  ObjectMeta : ObjectMeta
  Spec : PodSpec
deriving DecidableEq, Repr

/-- The spec of a deployment as it is submitted (`appsv1.DeploymentSpec` with
the fields the builder sets). -/
structure DeploymentManifestSpec where
  Replicas : Option Int
  Selector : Option LabelSelector
  Strategy : DeploymentStrategy
  Template : PodTemplateSpec
deriving DecidableEq, Repr

/-- The object of type `appsv1.Deployment` as it is submitted to the gateway:
metadata and spec.  The fields the gateway reports back, which
`CheckReadyReplicas` reads, are those of `Deployment`. -/
structure DeploymentManifest where
  ObjectMeta : ObjectMeta
  Spec : DeploymentManifestSpec
deriving DecidableEq, Repr

/-- The constant `v1.PullIfNotPresent`. -/
def PullIfNotPresent : String := "IfNotPresent"

/-- The constant `v1.ProtocolTCP`. -/
def ProtocolTCP : String := "TCP"

/-- The constant `v1.ResourceCPU`. -/
def ResourceCPU : String := "cpu"

/-- The constant `v1.ResourceMemory`. -/
def ResourceMemory : String := "memory"

/-- The constant `appsv1.RollingUpdateDeploymentStrategyType`. -/
def RollingUpdateDeploymentStrategyType : String := "RollingUpdate"

/-- The function `GetNginxDeploymentSpec` of `tests/resource.go`; `namespace_` is
its parameter `namespace`. -/
def GetNginxDeploymentSpec (namespace_ deploymentName : String) (replicaCount : Int)
    (privileged : Bool) : DeploymentManifest :=
  let maxSurge := IntOrString.fromInt 1
  { ObjectMeta := { Name := deploymentName, Namespace := namespace_, Labels := [] }
    Spec :=
      { Replicas := some replicaCount
        Selector := some { MatchLabels := [("k8s-app", deploymentName)] }
        Strategy :=
          { RollingUpdate := some { MaxUnavailable := none, MaxSurge := some maxSurge }
            Type_ := RollingUpdateDeploymentStrategyType }
        Template :=
          { ObjectMeta := { Name := "", Namespace := "", Labels := [("k8s-app", deploymentName)] }
            Spec :=
              { Containers :=
                  [{ Name := "nginx"
                     ImagePullPolicy := PullIfNotPresent
                     Image := "nginx"
                     Ports := [{ ContainerPort := 4080, Protocol := ProtocolTCP }]
                     Resources := { Limits := [(ResourceCPU, "500m"), (ResourceMemory, "100Mi")] }
                     SecurityContext := some { Privileged := some privileged } }]
                HostNetwork := false
                HostPID := false
                HostIPC := false } } } }

/-- The function `GetNginxPodSpec` of `tests/resource.go`; `namespace_` is its
parameter `namespace`. -/
def GetNginxPodSpec (namespace_ podName : String) (privileged : Bool) : Pod :=
  { ObjectMeta := { Name := podName, Namespace := namespace_, Labels := [] }
    Spec :=
      { Containers :=
          [{ Name := "nginx"
             ImagePullPolicy := PullIfNotPresent
             Image := "nginx"
             Ports := [{ ContainerPort := 4080, Protocol := ProtocolTCP }]
             Resources := { Limits := [(ResourceCPU, "500m"), (ResourceMemory, "100Mi")] }
             SecurityContext := some { Privileged := some privileged } }]
        HostNetwork := false
        HostPID := false
        HostIPC := false } }

/-- The variable `PodName` of the scenario "creating a pod"
(`tests/privileged_container_pod_test.go`). -/
def PodName : String := "nginx-privileged-container-pod-test"

/-- The pod the scenario "creating a pod with Privileged security context"
submits: the first four statements of its body. -/
def privilegedPodScenarioPod (TargetNamespace : String) : Pod :=
  let pod := GetNginxPodSpec TargetNamespace PodName false
  let pod := { pod with Spec := { pod.Spec with HostNetwork := true } }
  let pod := { pod with Spec := { pod.Spec with HostPID := true } }
  let pod := { pod with Spec := { pod.Spec with HostIPC := true } }
  pod

/-- The `Privileged` flags of the containers of a pod spec, in order: for each
container the flag its security context points to, `none` when the security
context or the flag is nil. -/
def privilegedFlags (spec : PodSpec) : List (Option Bool) :=
  spec.Containers.map fun c => c.SecurityContext.bind fun sc => sc.Privileged

/-! ## `CreateDeployment` and `CreatePod` -/

/-- The function `CreateDeployment` of `util.go`.  `create ns deployment` is
the error returned by `clientset.AppsV1().Deployments(ns).Create(deployment)`;
the created object the call also returns is discarded. -/
def CreateDeployment (create : String → DeploymentManifest → Option GoError)
    (deployment : DeploymentManifest) (targetNamespace : String) : Option GoError :=
  match create targetNamespace deployment with
  | some err => some (errorsNew ("Failed to create deployment: " ++ err.message))
  | none => none

/-- The function `CreatePod` of `util.go`.  `create ns pod` is the error
returned by `clientset.CoreV1().Pods(ns).Create(pod)`. -/
def CreatePod (create : String → Pod → Option GoError)
    (pod : Pod) (targetNamespace : String) : Option GoError :=
  match create targetNamespace pod with
  | some err => some (errorsNew ("Failed to create pod: " ++ err.message))
  | none => none

/-- The error with which an admission controller rejects a pod that asks for
the host network. -/
def hostNetworkRejected : GoError :=
  ⟨"pods nginx is forbidden: Host network is not allowed to be used", "Forbidden"⟩

/-! ## The assertions of the scenarios (`tests/*_test.go`) -/

/-- What a failed Gomega assertion reports: the operand of its matcher, the
expected value of `Equal` or the expected substring of `ContainSubstring`. -/
inductive Failure where
  | equal (expected : String)
  | containSubstring (substr : String)
deriving DecidableEq, Repr

/-- The outcome of the assertions of a scenario body.  The suite registers
Ginkgo's `Fail` as the fail handler (`RegisterFailHandler(Fail)`), which
records the failure and ends the spec by a panic: the first assertion that does
not hold is the only one reported and no later statement runs. -/
inductive Verdict where
  | passed
  | failed (report : Failure)
deriving DecidableEq, Repr

/-- The assertion `Expect(actual).To(Equal(expected))` on strings, followed by
the rest of the body. -/
def expectEqual (actual expected : String) (rest : Verdict) : Verdict :=
  if actual == expected then rest else .failed (.equal expected)

/-- The assertion `Expect(actual).To(ContainSubstring(substr))`, followed by the
rest of the body. -/
def expectContainSubstring (actual substr : String) (rest : Verdict) : Verdict :=
  if stringsContains actual substr then rest else .failed (.containSubstring substr)

/-- The assertions `Expect(message).To(ContainSubstring(f))` for the fragments
`f` of a list, in order. -/
def expectFragments (message : String) : List String → Verdict
  | [] => .passed
  | f :: rest => expectContainSubstring message f (expectFragments message rest)

/-- The assertions of the scenario "creating a deployment with Privileged
container" on the polled list (`privileged_container_deploy_test.go`, lines
78 to 106).  `Expect(len(rsList.Items) == 1)` and the following accesses to
`Items[0]` are one match, and so are `Expect(len(Conditions) == 1)` and the
accesses to `Conditions[0]`; the assertion that the struct `Status` is not nil
always holds. -/
def privilegedDeployAssertions (rsList : ReplicaSetList) : Verdict :=
  match rsList.Items with
  | [rs] =>
    match rs.Status.Conditions with
    | [cond] =>
      expectEqual cond.Reason "FailedCreate" <|
      expectEqual cond.Type_ ReplicaSetReplicaFailure <|
      expectEqual cond.Status "True" <|
      expectContainSubstring cond.Message
        ("spec.securityContext.hostNetwork: Invalid value: true: " ++
          "Host network is not allowed to be used") <|
      expectContainSubstring cond.Message
        ("spec.securityContext.hostPID: Invalid value: true: " ++
          "Host PID is not allowed to be used") <|
      expectContainSubstring cond.Message
        ("spec.securityContext.hostIPC: Invalid value: true: " ++
          "Host IPC is not allowed to be used") <|
      expectContainSubstring cond.Message "is forbidden: " <|
      expectContainSubstring cond.Message
        ("spec.containers[0].securityContext.privileged: Invalid value: true: " ++
          "Privileged containers are not allowed") <|
      .passed
    | _ => .failed (.equal "true")
  | _ => .failed (.equal "true")

/-- The five fragments the privileged-deployment scenario expects in the
message, in the order of its assertions. -/
def privilegedDeployFragments : List String :=
  ["spec.securityContext.hostNetwork: Invalid value: true: Host network is not allowed to be used",
   "spec.securityContext.hostPID: Invalid value: true: Host PID is not allowed to be used",
   "spec.securityContext.hostIPC: Invalid value: true: Host IPC is not allowed to be used",
   "is forbidden: ",
   "spec.containers[0].securityContext.privileged: Invalid value: true: Privileged containers are not allowed"]

/-- The assertions of the scenario "creating a deployment with Privileged
container with capabilities" on the polled list
(`privileged_container_caps_not_allowed_test.go`, lines 78 to 102). -/
def capabilityDeployAssertions (rsList : ReplicaSetList) : Verdict :=
  match rsList.Items with
  | [rs] =>
    match rs.Status.Conditions with
    | [cond] =>
      expectEqual cond.Reason "FailedCreate" <|
      expectEqual cond.Type_ ReplicaSetReplicaFailure <|
      expectEqual cond.Status "True" <|
      expectContainSubstring cond.Message "is forbidden: " <|
      expectContainSubstring cond.Message "Privileged containers are not allowed" <|
      expectContainSubstring cond.Message
        "capabilities.add: Invalid value: \"NET_ADMIN\": capability may not be added" <|
      expectContainSubstring cond.Message
        "capabilities.add: Invalid value: \"NET_RAW\": capability may not be added" <|
      expectContainSubstring cond.Message
        "capabilities.add: Invalid value: \"SYS_PTRACE\": capability may not be added" <|
      expectContainSubstring cond.Message
        "capabilities.add: Invalid value: \"SYS_ADMIN\": capability may not be added" <|
      expectContainSubstring cond.Message
        "capabilities.add: Invalid value: \"KILL\": capability may not be added" <|
      .passed
    | _ => .failed (.equal "true")
  | _ => .failed (.equal "true")

/-- The seven fragments the capabilities scenario expects in the message, in
the order of its assertions. -/
def capabilityDeployFragments : List String :=
  ["is forbidden: ",
   "Privileged containers are not allowed",
   "capabilities.add: Invalid value: \"NET_ADMIN\": capability may not be added",
   "capabilities.add: Invalid value: \"NET_RAW\": capability may not be added",
   "capabilities.add: Invalid value: \"SYS_PTRACE\": capability may not be added",
   "capabilities.add: Invalid value: \"SYS_ADMIN\": capability may not be added",
   "capabilities.add: Invalid value: \"KILL\": capability may not be added"]

/-- The expected fragments a message does not contain, in the order given. -/
def missingFragments (message : String) (fragments : List String) : List String :=
  fragments.filter fun f => !stringsContains message f

/-- The missing fragments a verdict reports. -/
def reportedFragments : Verdict → List String
  | .failed (.containSubstring f) => [f]
  | _ => []

/-- A replica set list with one replica set carrying the one condition
{FailedCreate, ReplicaFailure, True, `message`}. -/
def rejectedWith (message : String) : ReplicaSetList :=
  ⟨[⟨"nginx-7c68b45968", ⟨[⟨"ReplicaFailure", "True", "FailedCreate", message⟩]⟩⟩]⟩

/-- A message of the admission controller that names the privileged container
and the capability SYS_PTRACE only. -/
def capabilityMessage : String :=
  "pods is forbidden: Privileged containers are not allowed " ++
    "capabilities.add: Invalid value: \"SYS_PTRACE\": capability may not be added"

/-- A message holding the five fragments of the privileged-deployment scenario
in an order other than the order of the assertions. -/
def privilegedMessage : String :=
  "spec.containers[0].securityContext.privileged: Invalid value: true: " ++
    "Privileged containers are not allowed " ++
    "spec.securityContext.hostIPC: Invalid value: true: Host IPC is not allowed to be used " ++
    "spec.securityContext.hostPID: Invalid value: true: Host PID is not allowed to be used " ++
    "spec.securityContext.hostNetwork: Invalid value: true: " ++
    "Host network is not allowed to be used; pods is forbidden: "

/-! ## Teardown of the scenarios -/

/-- The fields of `CurrentGinkgoTestDescription()` the teardowns read. -/
structure GinkgoTestDescription where
  Failed : Bool
  FileName : String
  LineNumber : Nat
deriving DecidableEq, Repr

/-- An observable step of a teardown: a call of `util.DeleteDeployment` or
`util.DeletePod` with the name and the namespace, or a line logged by
`GinkgoT().Logf`. -/
inductive TeardownEvent where
  | deleteDeployment (deploymentName targetNamespace : String)
  | deletePod (podName targetNamespace : String)
  | logf (line : String)
deriving DecidableEq, Repr

/-- The constant `defaultStyle` of the suite. -/
def defaultStyle : String := "\x1b[0m"

/-- The constant `redColor` of the suite. -/
def redColor : String := "\x1b[91m"

/-- The line `Logf("%s Failed in teardown. %v:%d err: %v %s", ...)` of the
teardowns. -/
def teardownLine (desc : GinkgoTestDescription) (err : GoError) : String :=
  redColor ++ " Failed in teardown. " ++ desc.FileName ++ ":" ++ toString desc.LineNumber ++
    " err: " ++ err.message ++ " " ++ defaultStyle

/-- The `AfterEach` of the four deployment scenarios (privileged deployment,
capabilities, restricted volumes, impersonation), which have the same text,
each with its own `deploymentName`: delete the deployment and log the error if
the delete failed. -/
def deploymentAfterEach (delete : String → String → DeleteOptions → Option GoError)
    (deploymentName TargetNamespace : String) (desc : GinkgoTestDescription) :
    List TeardownEvent :=
  TeardownEvent.deleteDeployment deploymentName TargetNamespace ::
    match DeleteDeployment delete deploymentName TargetNamespace with
    | some err => [.logf (teardownLine desc err)]
    | none => []

/-- The `AfterEach` of the scenario "creating a pod": only when the test has
failed, delete the pod and log the error if the delete failed. -/
def podAfterEach (delete : String → String → DeleteOptions → Option GoError)
    (TargetNamespace : String) (desc : GinkgoTestDescription) : List TeardownEvent :=
  if desc.Failed then
    TeardownEvent.deletePod PodName TargetNamespace ::
      match DeletePod delete PodName TargetNamespace with
      | some err => [.logf (teardownLine desc err)]
      | none => []
  else []

/-- The names of the deployments of the four deployment scenarios: privileged
deployment, capabilities, restricted volumes, impersonation. -/
def scenarioDeploymentNames : List String :=
  ["nginx-privileged-container-deploy-test",
   "nginx-privileged-container-capability-not-allowed-deploy-test",
   "nginx-volume-deploy-test",
   "nginx-priv-impersonation"]

/-- A fetched deployment whose `Spec.Replicas` pointer is nil and which has no
ready replica. -/
def nilReplicasDeployment : Deployment := ⟨⟨none⟩, ⟨0⟩⟩

/-- A fetched deployment with 2 desired replicas, both ready. -/
def readyDeployment : Deployment := ⟨⟨some 2⟩, ⟨2⟩⟩

/-- A gateway whose first fetch shows a deployment without a desired replica
count and whose later fetches show a ready deployment. -/
def getNilThenReady : Nat → String → String → GetResult :=
  fun i _ _ => if i = 0 then .ok nilReplicasDeployment else .ok readyDeployment

/-- A gateway whose fetches always show a deployment without a desired replica
count. -/
def getNilReplicas : Nat → String → String → GetResult :=
  fun _ _ _ => .ok nilReplicasDeployment

/-- A replica set list with one replica set carrying the one condition
{FailedCreate, ReplicaFailure, False, `message`}. -/
def rejectedWithStatusFalse (message : String) : ReplicaSetList :=
  ⟨[⟨"nginx-7c68b45968", ⟨[⟨"ReplicaFailure", "False", "FailedCreate", message⟩]⟩⟩]⟩

/-! ## Auxiliary facts about traces -/

theorem countQueries_append (a b : List Event) :
    countQueries (a ++ b) = countQueries a + countQueries b := by
  simp [countQueries, List.filter_append]

theorem countFetches_append (a b : List Event) :
    countFetches (a ++ b) = countFetches a + countFetches b := by
  simp [countFetches, List.filter_append]

theorem countSleeps_append (a b : List Event) :
    countSleeps (a ++ b) = countSleeps a + countSleeps b := by
  simp [countSleeps, List.filter_append]

theorem sleepSeconds_append (a b : List Event) :
    sleepSeconds (a ++ b) = sleepSeconds a + sleepSeconds b := by
  induction a with
  | nil => simp [sleepSeconds]
  | cons ev a ih =>
    cases ev <;> simp [sleepSeconds, ih, Nat.add_assoc]

theorem pollEvents_succ (ns name : String) (n : Nat) :
    pollEvents ns name (n + 1) =
      [Event.listReplicaSets ns ("k8s-app=" ++ name), Event.sleep 30] ++ pollEvents ns name n := by
  simp [pollEvents, List.replicate_succ]

theorem pollEvents_succ_right (ns name : String) (n : Nat) :
    pollEvents ns name (n + 1) =
      pollEvents ns name n ++ [Event.listReplicaSets ns ("k8s-app=" ++ name), Event.sleep 30] := by
  induction n with
  | zero => simp [pollEvents]
  | succ n ih =>
    rw [pollEvents_succ, ih, ← List.append_assoc, ← pollEvents_succ, ih]

theorem countQueries_pollEvents (ns name : String) (n : Nat) :
    countQueries (pollEvents ns name n) = n := by
  induction n with
  | zero => simp [pollEvents, countQueries]
  | succ n ih =>
    rw [pollEvents_succ, countQueries_append, ih]
    simp [countQueries]
    omega

theorem countSleeps_pollEvents (ns name : String) (n : Nat) :
    countSleeps (pollEvents ns name n) = n := by
  induction n with
  | zero => simp [pollEvents, countSleeps]
  | succ n ih =>
    rw [pollEvents_succ, countSleeps_append, ih]
    simp [countSleeps]
    omega

theorem sleepSeconds_pollEvents (ns name : String) (n : Nat) :
    sleepSeconds (pollEvents ns name n) = 30 * n := by
  induction n with
  | zero => simp [pollEvents, sleepSeconds]
  | succ n ih =>
    rw [pollEvents_succ, sleepSeconds_append, ih]
    simp [sleepSeconds]
    omega

theorem fetchEvents_succ (ns name : String) (n : Nat) :
    fetchEvents ns name (n + 1) =
      [Event.getDeployment ns name, Event.sleep 30] ++ fetchEvents ns name n := by
  simp [fetchEvents, List.replicate_succ]

theorem fetchEvents_succ_right (ns name : String) (n : Nat) :
    fetchEvents ns name (n + 1) =
      fetchEvents ns name n ++ [Event.getDeployment ns name, Event.sleep 30] := by
  induction n with
  | zero => simp [fetchEvents]
  | succ n ih =>
    rw [fetchEvents_succ, ih, ← List.append_assoc, ← fetchEvents_succ, ih]

theorem countFetches_fetchEvents (ns name : String) (n : Nat) :
    countFetches (fetchEvents ns name n) = n := by
  induction n with
  | zero => simp [fetchEvents, countFetches]
  | succ n ih =>
    rw [fetchEvents_succ, countFetches_append, ih]
    simp [countFetches]
    omega

theorem countSleeps_fetchEvents (ns name : String) (n : Nat) :
    countSleeps (fetchEvents ns name n) = n := by
  induction n with
  | zero => simp [fetchEvents, countSleeps]
  | succ n ih =>
    rw [fetchEvents_succ, countSleeps_append, ih]
    simp [countSleeps]
    omega

theorem sleepSeconds_fetchEvents (ns name : String) (n : Nat) :
    sleepSeconds (fetchEvents ns name n) = 30 * n := by
  induction n with
  | zero => simp [fetchEvents, sleepSeconds]
  | succ n ih =>
    rw [fetchEvents_succ, sleepSeconds_append, ih]
    simp [sleepSeconds]
    omega

/-! ## Auxiliary facts about the loop of `GetStatusCondition` -/

theorem hasStatusCondition_iff (rsList : ReplicaSetList) :
    hasStatusCondition rsList = true ↔ ConditionBearing rsList := by
  obtain ⟨items⟩ := rsList
  cases items with
  | nil => simp [hasStatusCondition, ConditionBearing]
  | cons rs rest =>
    simp [hasStatusCondition, ConditionBearing, List.length_eq_zero]

theorem hasStatusCondition_eq_false (rsList : ReplicaSetList) (h : ¬ ConditionBearing rsList) :
    hasStatusCondition rsList = false := by
  cases hc : hasStatusCondition rsList with
  | false => rfl
  | true => exact absurd ((hasStatusCondition_iff rsList).mp hc) h

/-- Skipping `m` attempts that succeed without a condition-bearing list. -/
theorem GetStatusCondition_loop_skip (list : Nat → String → String → ListResult)
    (ns name : String) (m : Nat) :
    ∀ (left i : Nat) (tr : List Event),
      (∀ j, j < m → ∃ l, list (i + j) ns ("k8s-app=" ++ name) = .ok l ∧ ¬ ConditionBearing l) →
      GetStatusCondition.loop list ns name (left + m) i tr =
        GetStatusCondition.loop list ns name left (i + m) (tr ++ pollEvents ns name m) := by
  induction m with
  | zero => intro left i tr _; simp [pollEvents]
  | succ m ih =>
    intro left i tr h
    obtain ⟨l, hl, hnc⟩ := h 0 (Nat.succ_pos m)
    have hstep : GetStatusCondition.loop list ns name (left + m + 1) i tr =
        GetStatusCondition.loop list ns name (left + m) (i + 1)
          (tr ++ [Event.listReplicaSets ns ("k8s-app=" ++ name), Event.sleep 30]) := by
      simp only [GetStatusCondition.loop, ReplicaSetsByLabel]
      rw [Nat.add_zero] at hl
      rw [hl]
      simp [hasStatusCondition_eq_false l hnc]
    rw [← Nat.add_assoc, hstep, ih left (i + 1)]
    · rw [pollEvents_succ, List.append_assoc, Nat.add_assoc, Nat.add_comm 1 m]
    · intro j hj
      have := h (j + 1) (Nat.succ_lt_succ hj)
      rwa [Nat.add_assoc, Nat.add_comm 1 j]

/-- The run in which attempt `m` (counted from 0) is the first condition-bearing
one. -/
theorem GetStatusCondition_run_matched (list : Nat → String → String → ListResult)
    (ns name : String) (m : Nat) (l : ReplicaSetList)
    (hm : m ≤ GetStatusCondition.retryCount)
    (hpre : ∀ j, j < m → ∃ l, list j ns ("k8s-app=" ++ name) = .ok l ∧ ¬ ConditionBearing l)
    (hm_ok : list m ns ("k8s-app=" ++ name) = .ok l) (hl : ConditionBearing l) :
    GetStatusCondition list ns name = ⟨(some l, none), pollEvents ns name (m + 1)⟩ := by
  obtain ⟨left, hleft⟩ : ∃ left, GetStatusCondition.retryCount + 1 = left + 1 + m :=
    ⟨GetStatusCondition.retryCount - m, by omega⟩
  unfold GetStatusCondition
  rw [hleft, GetStatusCondition_loop_skip list ns name m (left + 1) 0 []
    (by intro j hj; simpa using hpre j hj)]
  simp only [GetStatusCondition.loop, ReplicaSetsByLabel, Nat.zero_add, List.nil_append]
  rw [hm_ok]
  simp [(hasStatusCondition_iff l).mpr hl, pollEvents_succ_right]

/-- The run in which attempt `m` (counted from 0) is the first failing one. -/
theorem GetStatusCondition_run_failed (list : Nat → String → String → ListResult)
    (ns name : String) (m : Nat) (rsList : Option ReplicaSetList) (err : GoError)
    (hm : m ≤ GetStatusCondition.retryCount)
    (hpre : ∀ j, j < m → ∃ l, list j ns ("k8s-app=" ++ name) = .ok l ∧ ¬ ConditionBearing l)
    (hm_fail : list m ns ("k8s-app=" ++ name) = .fail rsList err) :
    GetStatusCondition list ns name =
      ⟨(rsList, some err),
        pollEvents ns name m ++ [Event.listReplicaSets ns ("k8s-app=" ++ name)]⟩ := by
  obtain ⟨left, hleft⟩ : ∃ left, GetStatusCondition.retryCount + 1 = left + 1 + m :=
    ⟨GetStatusCondition.retryCount - m, by omega⟩
  unfold GetStatusCondition
  rw [hleft, GetStatusCondition_loop_skip list ns name m (left + 1) 0 []
    (by intro j hj; simpa using hpre j hj)]
  simp only [GetStatusCondition.loop, ReplicaSetsByLabel, Nat.zero_add, List.nil_append]
  rw [hm_fail]

/-- The run in which no attempt fails or is condition-bearing. -/
theorem GetStatusCondition_run_exhausted (list : Nat → String → String → ListResult)
    (ns name : String)
    (h : ∀ j, j < GetStatusCondition.retryCount + 1 →
      ∃ l, list j ns ("k8s-app=" ++ name) = .ok l ∧ ¬ ConditionBearing l) :
    GetStatusCondition list ns name =
      ⟨(none, some (errorsNew GetStatusCondition.exhaustedMessage)),
        pollEvents ns name (GetStatusCondition.retryCount + 1)⟩ := by
  unfold GetStatusCondition
  have := GetStatusCondition_loop_skip list ns name (GetStatusCondition.retryCount + 1) 0 0 []
    (by intro j hj; simpa using h j hj)
  rw [Nat.zero_add] at this
  rw [this]
  simp [GetStatusCondition.loop]

/-- A successful return of the loop carries a condition-bearing list. -/
theorem GetStatusCondition_loop_success (list : Nat → String → String → ListResult)
    (ns name : String) (l : ReplicaSetList) :
    ∀ (left i : Nat) (tr : List Event),
      (GetStatusCondition.loop list ns name left i tr).result = (some l, none) →
      ConditionBearing l := by
  intro left
  induction left with
  | zero => intro i tr h; simp [GetStatusCondition.loop] at h
  | succ left ih =>
    intro i tr h
    simp only [GetStatusCondition.loop] at h
    cases hq : ReplicaSetsByLabel list i ("k8s-app=" ++ name) ns with
    | fail rsList err => rw [hq] at h; simp at h
    | ok rsList =>
      rw [hq] at h
      cases hc : hasStatusCondition rsList with
      | true =>
        simp [hc] at h
        exact h ▸ (hasStatusCondition_iff rsList).mp hc
      | false =>
        simp [hc] at h
        exact ih _ _ h

theorem not_conditionBearing_of_empty_or_bare (l : ReplicaSetList)
    (h : l.Items = [] ∨ ∃ rs, l.Items.head? = some rs ∧ rs.Status.Conditions = []) :
    ¬ ConditionBearing l := by
  rintro ⟨rs, hrs, hne⟩
  rcases h with h | ⟨rs', hrs', he⟩
  · simp [h] at hrs
  · rw [hrs] at hrs'
    cases hrs'
    exact hne he

/-! ## Auxiliary facts about the loop of `CheckReadyReplicas` -/

/-- Skipping `m` attempts that fetch a deployment which is not yet ready. -/
theorem CheckReadyReplicas_loop_skip (get : Nat → String → String → GetResult)
    (name ns : String) (m : Nat) :
    ∀ (left i : Nat) (tr : List Event),
      (∀ j, j < m → ∃ d, get (i + j) ns name = .ok d ∧ NotYetReady d) →
      CheckReadyReplicas.loop get name ns (left + m) i tr =
        CheckReadyReplicas.loop get name ns left (i + m) (tr ++ fetchEvents ns name m) := by
  induction m with
  | zero => intro left i tr _; simp [fetchEvents]
  | succ m ih =>
    intro left i tr h
    obtain ⟨d, hd, r, hr, hne⟩ := h 0 (Nat.succ_pos m)
    have hstep : CheckReadyReplicas.loop get name ns (left + m + 1) i tr =
        CheckReadyReplicas.loop get name ns (left + m) (i + 1)
          (tr ++ [Event.getDeployment ns name, Event.sleep 30]) := by
      simp only [CheckReadyReplicas.loop]
      rw [Nat.add_zero] at hd
      rw [hd]
      simp [hr, hne]
    rw [← Nat.add_assoc, hstep, ih left (i + 1)]
    · rw [fetchEvents_succ, List.append_assoc, Nat.add_assoc, Nat.add_comm 1 m]
    · intro j hj
      have := h (j + 1) (Nat.succ_lt_succ hj)
      rwa [Nat.add_assoc, Nat.add_comm 1 j]

/-- The number of iterations when attempt `m` (counted from 0) is within the
retry count. -/
theorem CheckReadyReplicas_iterations (retryCount : Int) (m : Nat) (hm : (m : Int) ≤ retryCount) :
    ∃ left, (retryCount + 1).toNat = left + 1 + m :=
  ⟨(retryCount + 1).toNat - 1 - m, by omega⟩

/-- The run in which attempt `m` (counted from 0) is the first ready one. -/
theorem CheckReadyReplicas_run_ready (get : Nat → String → String → GetResult)
    (name ns : String) (retryCount : Int) (m : Nat) (d : Deployment)
    (hm : (m : Int) ≤ retryCount)
    (hpre : ∀ j, j < m → ∃ d, get j ns name = .ok d ∧ NotYetReady d)
    (hm_ok : get m ns name = .ok d) (hd : ReadyEqualsDesired d) :
    CheckReadyReplicas get name ns retryCount = ⟨.returned none, fetchEvents ns name (m + 1)⟩ := by
  obtain ⟨left, hleft⟩ := CheckReadyReplicas_iterations retryCount m hm
  unfold CheckReadyReplicas
  rw [hleft, CheckReadyReplicas_loop_skip get name ns m (left + 1) 0 []
    (by intro j hj; simpa using hpre j hj)]
  simp only [CheckReadyReplicas.loop, Nat.zero_add, List.nil_append]
  rw [hm_ok]
  unfold ReadyEqualsDesired at hd
  simp [hd, fetchEvents_succ_right]

/-- The run in which attempt `m` (counted from 0) is the first failing one. -/
theorem CheckReadyReplicas_run_failed (get : Nat → String → String → GetResult)
    (name ns : String) (retryCount : Int) (m : Nat) (err : GoError)
    (hm : (m : Int) ≤ retryCount)
    (hpre : ∀ j, j < m → ∃ d, get j ns name = .ok d ∧ NotYetReady d)
    (hm_fail : get m ns name = .fail err) :
    CheckReadyReplicas get name ns retryCount =
      ⟨.returned (some (errorsNew ("Failed to get deployment: " ++ err.message))),
        fetchEvents ns name m ++ [Event.getDeployment ns name]⟩ := by
  obtain ⟨left, hleft⟩ := CheckReadyReplicas_iterations retryCount m hm
  unfold CheckReadyReplicas
  rw [hleft, CheckReadyReplicas_loop_skip get name ns m (left + 1) 0 []
    (by intro j hj; simpa using hpre j hj)]
  simp only [CheckReadyReplicas.loop, Nat.zero_add, List.nil_append]
  rw [hm_fail]

/-- The run in which every attempt fetches a deployment that is not yet ready. -/
theorem CheckReadyReplicas_run_exhausted (get : Nat → String → String → GetResult)
    (name ns : String) (retryCount : Int)
    (h : ∀ j, j < (retryCount + 1).toNat → ∃ d, get j ns name = .ok d ∧ NotYetReady d) :
    CheckReadyReplicas get name ns retryCount =
      ⟨.returned (some (errorsNew
          ("CheckReadyReplicas status failed even after multiple retryCount for deployment " ++
            name))),
        fetchEvents ns name (retryCount + 1).toNat⟩ := by
  unfold CheckReadyReplicas
  have := CheckReadyReplicas_loop_skip get name ns (retryCount + 1).toNat 0 0 []
    (by intro j hj; simpa using h j hj)
  rw [Nat.zero_add] at this
  rw [this]
  simp only [CheckReadyReplicas.loop, Nat.zero_add, List.nil_append]
  rfl

/-- A nil error returned by the loop comes from a first ready attempt. -/
theorem CheckReadyReplicas_loop_ready (get : Nat → String → String → GetResult)
    (name ns : String) :
    ∀ (left i : Nat) (tr : List Event),
      (CheckReadyReplicas.loop get name ns left i tr).result = .returned none →
      ∃ m, m < left ∧ (∃ d, get (i + m) ns name = .ok d ∧ ReadyEqualsDesired d) ∧
        ∀ j, j < m → ∃ d, get (i + j) ns name = .ok d ∧ NotYetReady d := by
  intro left
  induction left with
  | zero => intro i tr h; simp [CheckReadyReplicas.loop] at h
  | succ left ih =>
    intro i tr h
    simp only [CheckReadyReplicas.loop] at h
    cases hq : get i ns name with
    | fail err => rw [hq] at h; simp at h
    | ok d =>
      rw [hq] at h
      cases hr : d.Spec.Replicas with
      | none => simp [hr] at h
      | some r =>
        by_cases heq : d.Status.ReadyReplicas = r
        · exact ⟨0, Nat.succ_pos left, ⟨d, by simpa using hq, by
            unfold ReadyEqualsDesired; rw [hr, heq]⟩, fun j hj => absurd hj (Nat.not_lt_zero j)⟩
        · simp [hr, heq] at h
          obtain ⟨m, hm, ⟨d', hd', hready⟩, hpre⟩ := ih _ _ h
          refine ⟨m + 1, Nat.succ_lt_succ hm, ⟨d', ?_, hready⟩, ?_⟩
          · rw [← hd']; congr 1; omega
          · intro j hj
            cases j with
            | zero => exact ⟨d, by simpa using hq, r, hr, heq⟩
            | succ j =>
              obtain ⟨d'', hd'', hn⟩ := hpre j (by omega)
              exact ⟨d'', by rw [← hd'']; congr 1; omega, hn⟩

/-- Every iteration of the loop of `CheckReadyReplicas` sleeps at most once,
for 30 seconds. -/
theorem CheckReadyReplicas_loop_sleeps (get : Nat → String → String → GetResult)
    (name ns : String) :
    ∀ (left i : Nat) (tr : List Event),
      countSleeps (CheckReadyReplicas.loop get name ns left i tr).trace ≤ countSleeps tr + left ∧
      sleepSeconds (CheckReadyReplicas.loop get name ns left i tr).trace ≤
        sleepSeconds tr + 30 * left := by
  intro left
  induction left with
  | zero => intro i tr; simp [CheckReadyReplicas.loop]
  | succ left ih =>
    intro i tr
    simp only [CheckReadyReplicas.loop]
    have hc : countSleeps (tr ++ [Event.getDeployment ns name, Event.sleep 30]) =
        countSleeps tr + 1 := by
      rw [countSleeps_append]; simp [countSleeps]
    have hs : sleepSeconds (tr ++ [Event.getDeployment ns name, Event.sleep 30]) =
        sleepSeconds tr + 30 := by
      rw [sleepSeconds_append]; simp [sleepSeconds]
    cases hq : get i ns name with
    | fail err =>
      simp only [countSleeps_append, sleepSeconds_append]
      simp [countSleeps, sleepSeconds]
    | ok d =>
      dsimp only
      cases hr : d.Spec.Replicas with
      | none => dsimp only; rw [hc, hs]; omega
      | some r =>
        dsimp only
        by_cases heq : d.Status.ReadyReplicas = r
        · rw [if_pos heq]; dsimp only; rw [hc, hs]; omega
        · rw [if_neg heq]
          have := ih (i + 1) (tr ++ [Event.getDeployment ns name, Event.sleep 30])
          rw [hc, hs] at this
          omega

/-- Every iteration of the loop of `GetStatusCondition` sleeps at most once,
for 30 seconds. -/
theorem GetStatusCondition_loop_sleeps (list : Nat → String → String → ListResult)
    (ns name : String) :
    ∀ (left i : Nat) (tr : List Event),
      countSleeps (GetStatusCondition.loop list ns name left i tr).trace ≤ countSleeps tr + left ∧
      sleepSeconds (GetStatusCondition.loop list ns name left i tr).trace ≤
        sleepSeconds tr + 30 * left := by
  intro left
  induction left with
  | zero => intro i tr; simp [GetStatusCondition.loop]
  | succ left ih =>
    intro i tr
    simp only [GetStatusCondition.loop]
    have hc : countSleeps (tr ++ [Event.listReplicaSets ns ("k8s-app=" ++ name), Event.sleep 30]) =
        countSleeps tr + 1 := by
      rw [countSleeps_append]; simp [countSleeps]
    have hs : sleepSeconds (tr ++ [Event.listReplicaSets ns ("k8s-app=" ++ name), Event.sleep 30]) =
        sleepSeconds tr + 30 := by
      rw [sleepSeconds_append]; simp [sleepSeconds]
    cases hq : ReplicaSetsByLabel list i ("k8s-app=" ++ name) ns with
    | fail rsList err =>
      simp only [countSleeps_append, sleepSeconds_append]
      simp [countSleeps, sleepSeconds]
    | ok rsList =>
      dsimp only
      cases hcond : hasStatusCondition rsList with
      | true => rw [if_pos rfl]; dsimp only; rw [hc, hs]; omega
      | false =>
        rw [if_neg Bool.false_ne_true]
        have := ih (i + 1)
          (tr ++ [Event.listReplicaSets ns ("k8s-app=" ++ name), Event.sleep 30])
        rw [hc, hs] at this
        omega

/-! ## The poller `GetStatusCondition` -/

/-- C1. First observation commits: when the first `k - 1` queries succeed
without a condition-bearing list and query number `k` (with
`1 ≤ k ≤ retryCount + 1`, `retryCount` being 3) succeeds with a
condition-bearing list `l`, `GetStatusCondition` returns exactly `l` with a nil
error and performs exactly `k` queries. -/
theorem GetStatusCondition_first_observation_commits
    (list : Nat → String → String → ListResult) (ns name : String) (k : Nat)
    (l : ReplicaSetList) (hk1 : 1 ≤ k) (hk : k ≤ GetStatusCondition.retryCount + 1)
    (hpre : ∀ j, j + 1 < k →
      ∃ l', list j ns ("k8s-app=" ++ name) = .ok l' ∧ ¬ ConditionBearing l')
    (hkth : list (k - 1) ns ("k8s-app=" ++ name) = .ok l) (hl : ConditionBearing l) :
    (GetStatusCondition list ns name).result = (some l, none) ∧
      countQueries (GetStatusCondition list ns name).trace = k := by
  have hrun := GetStatusCondition_run_matched list ns name (k - 1) l (by omega)
    (fun j hj => hpre j (by omega)) hkth hl
  rw [hrun, Nat.sub_add_cancel hk1]
  exact ⟨rfl, countQueries_pollEvents ns name k⟩

/-- Witness of C1: nothing on attempts 1 to 3, one replica set with one
condition on attempt 4. -/
theorem GetStatusCondition_first_observation_commits_witness :
    (GetStatusCondition listAfterThreeEmpty "k8s-sec-check" "nginx").result =
        (some ⟨[rejectedReplicaSet]⟩, none) ∧
      countQueries (GetStatusCondition listAfterThreeEmpty "k8s-sec-check" "nginx").trace = 4 :=
  GetStatusCondition_first_observation_commits listAfterThreeEmpty "k8s-sec-check" "nginx" 4
    ⟨[rejectedReplicaSet]⟩ (by decide) (by decide)
    (fun j hj => ⟨⟨[]⟩, by
      have hj3 : j < 3 := by omega
      simp [listAfterThreeEmpty, hj3], by simp [ConditionBearing]⟩)
    (by simp [listAfterThreeEmpty])
    ⟨rejectedReplicaSet, rfl, by simp [rejectedReplicaSet]⟩

/-- C2. Exhaustion: when every query succeeds and its list is empty or its
(first) resource has no status condition, `GetStatusCondition` returns a nil
list together with the error "failed to fetch the replicaset status condition
after multiple attempts", after exactly `retryCount + 1 = 4` queries. -/
theorem GetStatusCondition_exhausted_after_budget
    (list : Nat → String → String → ListResult) (ns name : String)
    (h : ∀ i, ∃ l, list i ns ("k8s-app=" ++ name) = .ok l ∧
      (l.Items = [] ∨ ∃ rs, l.Items.head? = some rs ∧ rs.Status.Conditions = [])) :
    (GetStatusCondition list ns name).result =
        (none, some (errorsNew
          "failed to fetch the replicaset status condition after multiple attempts")) ∧
      countQueries (GetStatusCondition list ns name).trace = GetStatusCondition.retryCount + 1 ∧
      GetStatusCondition.retryCount + 1 = 4 := by
  have hrun := GetStatusCondition_run_exhausted list ns name (fun j _ => by
    obtain ⟨l, hl, hb⟩ := h j
    exact ⟨l, hl, not_conditionBearing_of_empty_or_bare l hb⟩)
  rw [hrun]
  exact ⟨rfl, countQueries_pollEvents ns name _, rfl⟩

/-- Witness of C2: a gateway that never finds a replica set. -/
theorem GetStatusCondition_exhausted_after_budget_witness :
    (GetStatusCondition listAlwaysEmpty "k8s-sec-check" "nginx").result =
        (none, some (errorsNew
          "failed to fetch the replicaset status condition after multiple attempts")) ∧
      countQueries (GetStatusCondition listAlwaysEmpty "k8s-sec-check" "nginx").trace =
        GetStatusCondition.retryCount + 1 ∧
      GetStatusCondition.retryCount + 1 = 4 :=
  GetStatusCondition_exhausted_after_budget listAlwaysEmpty "k8s-sec-check" "nginx"
    (fun _ => ⟨⟨[]⟩, rfl, Or.inl rfl⟩)

/-- C3. A query failure is propagated and not retried: when the first `k - 1`
queries succeed without a condition-bearing list and query number `k` (within
the `retryCount + 1` attempts) fails with `err`, `GetStatusCondition` returns
the gateway's pair with `err` unchanged, performs exactly `k` queries, and the
failing query is the last event of the run. -/
theorem GetStatusCondition_query_failure_propagated
    (list : Nat → String → String → ListResult) (ns name : String) (k : Nat)
    (rsList : Option ReplicaSetList) (err : GoError)
    (hk1 : 1 ≤ k) (hk : k ≤ GetStatusCondition.retryCount + 1)
    (hpre : ∀ j, j + 1 < k →
      ∃ l', list j ns ("k8s-app=" ++ name) = .ok l' ∧ ¬ ConditionBearing l')
    (hkth : list (k - 1) ns ("k8s-app=" ++ name) = .fail rsList err) :
    (GetStatusCondition list ns name).result = (rsList, some err) ∧
      countQueries (GetStatusCondition list ns name).trace = k ∧
      (GetStatusCondition list ns name).trace.getLast? =
        some (Event.listReplicaSets ns ("k8s-app=" ++ name)) := by
  have hrun := GetStatusCondition_run_failed list ns name (k - 1) rsList err (by omega)
    (fun j hj => hpre j (by omega)) hkth
  rw [hrun]
  refine ⟨rfl, ?_, by simp⟩
  rw [countQueries_append, countQueries_pollEvents]
  simp [countQueries]
  omega

/-- Witness of C3: the first query fails, later ones would have matched. -/
theorem GetStatusCondition_query_failure_propagated_witness :
    (GetStatusCondition (listFailsFirst connectionRefused) "k8s-sec-check" "nginx").result =
        (none, some connectionRefused) ∧
      countQueries
        (GetStatusCondition (listFailsFirst connectionRefused) "k8s-sec-check" "nginx").trace = 1 ∧
      (GetStatusCondition (listFailsFirst connectionRefused) "k8s-sec-check" "nginx").trace.getLast? =
        some (Event.listReplicaSets "k8s-sec-check" ("k8s-app=" ++ "nginx")) :=
  GetStatusCondition_query_failure_propagated (listFailsFirst connectionRefused)
    "k8s-sec-check" "nginx" 1 none connectionRefused (by decide) (by decide)
    (fun j hj => absurd hj (by omega)) (by simp [listFailsFirst])

/-- C4, as stated, fails: a gateway whose every query finds two replica sets,
both carrying a condition.  `GetStatusCondition` returns the list of two, with a
nil error, after the first query. -/
theorem GetStatusCondition_returns_several :
    (GetStatusCondition (listAlways [rejectedReplicaSet, otherReplicaSet])
        "k8s-sec-check" "nginx").result =
        (some ⟨[rejectedReplicaSet, otherReplicaSet]⟩, none) ∧
      (ReplicaSetList.mk [rejectedReplicaSet, otherReplicaSet]).Items.length = 2 ∧
      countQueries (GetStatusCondition (listAlways [rejectedReplicaSet, otherReplicaSet])
        "k8s-sec-check" "nginx").trace = 1 := by
  decide

/-- C4, amended.  `GetStatusCondition` tests that the list is not empty and that
its first resource carries a condition, not that it holds exactly one resource:
(1) a list returned with a nil error holds at least one resource and its first
resource carries a condition; (2) a first query finding two or more resources
whose first one carries a condition is returned at once; (3) if every query
finds two or more resources whose first one carries no condition, the call ends
in exhaustion after `retryCount + 1 = 4` queries. -/
theorem GetStatusCondition_cardinality
    (list : Nat → String → String → ListResult) (ns name : String) :
    (∀ l, (GetStatusCondition list ns name).result = (some l, none) →
      1 ≤ l.Items.length ∧ ConditionBearing l) ∧
    (∀ l, list 0 ns ("k8s-app=" ++ name) = .ok l → 2 ≤ l.Items.length → ConditionBearing l →
      (GetStatusCondition list ns name).result = (some l, none) ∧
        countQueries (GetStatusCondition list ns name).trace = 1) ∧
    ((∀ i, ∃ rs₁ rs₂ rest, list i ns ("k8s-app=" ++ name) = .ok ⟨rs₁ :: rs₂ :: rest⟩ ∧
        rs₁.Status.Conditions = []) →
      (GetStatusCondition list ns name).result =
          (none, some (errorsNew GetStatusCondition.exhaustedMessage)) ∧
        countQueries (GetStatusCondition list ns name).trace = 4) := by
  refine ⟨?_, ?_, ?_⟩
  · intro l h
    have hc := GetStatusCondition_loop_success list ns name l _ _ _ h
    refine ⟨?_, hc⟩
    obtain ⟨rs, hrs, _⟩ := hc
    cases hi : l.Items with
    | nil => simp [hi] at hrs
    | cons a rest => simp
  · intro l hl _ hc
    rw [GetStatusCondition_run_matched list ns name 0 l (Nat.zero_le _)
      (fun j hj => absurd hj (Nat.not_lt_zero j)) hl hc]
    exact ⟨rfl, countQueries_pollEvents ns name 1⟩
  · intro h
    rw [GetStatusCondition_run_exhausted list ns name (fun j _ => by
      obtain ⟨rs₁, rs₂, rest, hl, hb⟩ := h j
      exact ⟨_, hl, not_conditionBearing_of_empty_or_bare _ (Or.inr ⟨rs₁, rfl, hb⟩)⟩)]
    exact ⟨rfl, countQueries_pollEvents ns name _⟩

/-- Witness of the amended C4: two replica sets of which the first carries no
condition, on every query, end in exhaustion after four queries. -/
theorem GetStatusCondition_cardinality_witness :
    (GetStatusCondition (listAlways [pendingReplicaSet, otherReplicaSet])
        "k8s-sec-check" "nginx").result =
        (none, some (errorsNew GetStatusCondition.exhaustedMessage)) ∧
      countQueries (GetStatusCondition (listAlways [pendingReplicaSet, otherReplicaSet])
        "k8s-sec-check" "nginx").trace = 4 :=
  (GetStatusCondition_cardinality (listAlways [pendingReplicaSet, otherReplicaSet])
    "k8s-sec-check" "nginx").2.2
    (fun _ => ⟨pendingReplicaSet, otherReplicaSet, [], rfl, rfl⟩)

/-- C5, as stated, fails: the very first query finds a replica set with a
condition, and the run still sleeps 30 seconds between that query and the
return: one sleep, not zero. -/
theorem GetStatusCondition_sleeps_before_return :
    (GetStatusCondition (listAlways [rejectedReplicaSet]) "k8s-sec-check" "nginx").result =
        (some ⟨[rejectedReplicaSet]⟩, none) ∧
      (GetStatusCondition (listAlways [rejectedReplicaSet]) "k8s-sec-check" "nginx").trace =
        [Event.listReplicaSets "k8s-sec-check" "k8s-app=nginx", Event.sleep 30] ∧
      countSleeps
        (GetStatusCondition (listAlways [rejectedReplicaSet]) "k8s-sec-check" "nginx").trace = 1 := by
  decide

/-- C5, amended.  When query number `k` is the first condition-bearing one,
`GetStatusCondition` has slept 30 seconds after each of the `k` queries, the
matching one included: the run is `k` times a query followed by a sleep, so the
match costs exactly `k` sleeps, the last event before the return is a sleep, and
no query follows the matching one. -/
theorem GetStatusCondition_sleep_after_every_query
    (list : Nat → String → String → ListResult) (ns name : String) (k : Nat)
    (l : ReplicaSetList) (hk1 : 1 ≤ k) (hk : k ≤ GetStatusCondition.retryCount + 1)
    (hpre : ∀ j, j + 1 < k →
      ∃ l', list j ns ("k8s-app=" ++ name) = .ok l' ∧ ¬ ConditionBearing l')
    (hkth : list (k - 1) ns ("k8s-app=" ++ name) = .ok l) (hl : ConditionBearing l) :
    (GetStatusCondition list ns name).trace = pollEvents ns name k ∧
      countSleeps (GetStatusCondition list ns name).trace = k ∧
      sleepSeconds (GetStatusCondition list ns name).trace = 30 * k ∧
      (GetStatusCondition list ns name).trace.getLast? = some (Event.sleep 30) := by
  have hrun := GetStatusCondition_run_matched list ns name (k - 1) l (by omega)
    (fun j hj => hpre j (by omega)) hkth hl
  rw [hrun, Nat.sub_add_cancel hk1]
  refine ⟨rfl, countSleeps_pollEvents ns name k, sleepSeconds_pollEvents ns name k, ?_⟩
  obtain ⟨m, rfl⟩ : ∃ m, k = m + 1 := ⟨k - 1, by omega⟩
  simp [pollEvents_succ_right]

/-- Witness of the amended C5: nothing on attempts 1 to 3, a match on attempt
4, four sleeps. -/
theorem GetStatusCondition_sleep_after_every_query_witness :
    (GetStatusCondition listAfterThreeEmpty "k8s-sec-check" "nginx").trace =
        pollEvents "k8s-sec-check" "nginx" 4 ∧
      countSleeps (GetStatusCondition listAfterThreeEmpty "k8s-sec-check" "nginx").trace = 4 ∧
      sleepSeconds (GetStatusCondition listAfterThreeEmpty "k8s-sec-check" "nginx").trace =
        30 * 4 ∧
      (GetStatusCondition listAfterThreeEmpty "k8s-sec-check" "nginx").trace.getLast? =
        some (Event.sleep 30) :=
  GetStatusCondition_sleep_after_every_query listAfterThreeEmpty "k8s-sec-check" "nginx" 4
    ⟨[rejectedReplicaSet]⟩ (by decide) (by decide)
    (fun j hj => ⟨⟨[]⟩, by
      have hj3 : j < 3 := by omega
      simp [listAfterThreeEmpty, hj3], by simp [ConditionBearing]⟩)
    (by simp [listAfterThreeEmpty])
    ⟨rejectedReplicaSet, rfl, by simp [rejectedReplicaSet]⟩

/-! ## Deletion -/

/-- C6. Delete is idempotent: `DeleteDeployment` and `DeletePod` return a nil
error exactly when the gateway's delete call reported success or a not-found
error; for any other gateway error `e` they return the error with the message
"Failed to delete deployment: " (respectively "Failed to delete pod: ")
followed by the message of `e`. -/
theorem Delete_idempotent
    (deleteDeployment deletePod : String → String → DeleteOptions → Option GoError)
    (name ns : String) :
    (DeleteDeployment deleteDeployment name ns = none ↔
      (deleteDeployment ns name ⟨some .Foreground⟩ = none ∨
        ∃ e, deleteDeployment ns name ⟨some .Foreground⟩ = some e ∧ IsNotFound e = true)) ∧
    (∀ e, deleteDeployment ns name ⟨some .Foreground⟩ = some e → IsNotFound e = false →
      DeleteDeployment deleteDeployment name ns =
        some (errorsNew ("Failed to delete deployment: " ++ e.message))) ∧
    (DeletePod deletePod name ns = none ↔
      (deletePod ns name ⟨some .Foreground⟩ = none ∨
        ∃ e, deletePod ns name ⟨some .Foreground⟩ = some e ∧ IsNotFound e = true)) ∧
    (∀ e, deletePod ns name ⟨some .Foreground⟩ = some e → IsNotFound e = false →
      DeletePod deletePod name ns = some (errorsNew ("Failed to delete pod: " ++ e.message))) := by
  refine ⟨?_, ?_, ?_, ?_⟩
  · cases hd : deleteDeployment ns name ⟨some .Foreground⟩ with
    | none => simp [DeleteDeployment, hd]
    | some e => cases hn : IsNotFound e <;> simp [DeleteDeployment, hd, hn]
  · intro e he hn
    simp [DeleteDeployment, he, hn]
  · cases hd : deletePod ns name ⟨some .Foreground⟩ with
    | none => simp [DeletePod, hd]
    | some e => cases hn : IsNotFound e <;> simp [DeletePod, hd, hn]
  · intro e he hn
    simp [DeletePod, he, hn]

/-- Witness of C6: deleting a deployment and a pod that are already absent
returns no error, and a forbidden delete returns the wrapped error. -/
theorem Delete_idempotent_witness :
    DeleteDeployment (fun _ _ _ => some notFoundError) "nginx" "k8s-sec-check" = none ∧
      DeletePod (fun _ _ _ => some notFoundError) "nginx" "k8s-sec-check" = none ∧
      DeleteDeployment (fun _ _ _ => some forbiddenError) "nginx" "k8s-sec-check" =
        some (errorsNew ("Failed to delete deployment: " ++ forbiddenError.message)) :=
  ⟨(Delete_idempotent (fun _ _ _ => some notFoundError) (fun _ _ _ => some notFoundError)
      "nginx" "k8s-sec-check").1.mpr (Or.inr ⟨notFoundError, rfl, by decide⟩),
    (Delete_idempotent (fun _ _ _ => some notFoundError) (fun _ _ _ => some notFoundError)
      "nginx" "k8s-sec-check").2.2.1.mpr (Or.inr ⟨notFoundError, rfl, by decide⟩),
    (Delete_idempotent (fun _ _ _ => some forbiddenError) (fun _ _ _ => some forbiddenError)
      "nginx" "k8s-sec-check").2.1 forbiddenError rfl (by decide)⟩

/-! ## The readiness poller `CheckReadyReplicas` -/

/-- C7, as stated, fails: the first fetch shows a deployment whose desired
replica count is nil, so it does not satisfy the criterion, and the second fetch
shows a ready deployment; both fetches succeed and attempt 2 is within the
`retryCount + 1 = 4` attempts, yet `CheckReadyReplicas` does not return a nil
error: it panics on the nil pointer after the first fetch. -/
theorem CheckReadyReplicas_panics_on_nil_replicas :
    (∃ d, getNilThenReady 1 "k8s-sec-check" "nginx" = .ok d ∧ ReadyEqualsDesired d) ∧
      (∃ d, getNilThenReady 0 "k8s-sec-check" "nginx" = .ok d ∧ ¬ ReadyEqualsDesired d) ∧
      (CheckReadyReplicas getNilThenReady "nginx" "k8s-sec-check" 3).result = .panicked ∧
      (CheckReadyReplicas getNilThenReady "nginx" "k8s-sec-check" 3).result ≠ .returned none ∧
      countFetches (CheckReadyReplicas getNilThenReady "nginx" "k8s-sec-check" 3).trace = 1 :=
  ⟨⟨readyDeployment, rfl, rfl⟩,
    ⟨nilReplicasDeployment, rfl, by unfold ReadyEqualsDesired; decide⟩,
    by decide, by decide, by decide⟩

/-- C7, amended.  Readiness criterion: for every `retryCount` and every sequence
of fetch results, `CheckReadyReplicas` returns a nil error exactly when there is
an attempt `k` among the `retryCount + 1` attempts at which the fetch succeeds
and shows ready replicas equal to desired replicas, every earlier fetch having
succeeded and shown a desired replica count that is set and that the
ready-replica count does not equal; it then performs exactly `k` fetches. -/
theorem CheckReadyReplicas_ready_iff (get : Nat → String → String → GetResult)
    (name ns : String) (retryCount : Int) :
    ((CheckReadyReplicas get name ns retryCount).result = .returned none ↔
      ∃ k : Nat, (k : Int) ≤ retryCount + 1 ∧ FirstReadyAt get name ns k) ∧
    (∀ k : Nat, (k : Int) ≤ retryCount + 1 → FirstReadyAt get name ns k →
      countFetches (CheckReadyReplicas get name ns retryCount).trace = k) := by
  have hrun : ∀ k : Nat, (k : Int) ≤ retryCount + 1 → FirstReadyAt get name ns k →
      CheckReadyReplicas get name ns retryCount = ⟨.returned none, fetchEvents ns name k⟩ := by
    rintro k hk ⟨hk1, ⟨d, hd, hready⟩, hpre⟩
    have := CheckReadyReplicas_run_ready get name ns retryCount (k - 1) d (by omega)
      (fun j hj => hpre j (by omega)) hd hready
    rwa [Nat.sub_add_cancel hk1] at this
  refine ⟨⟨?_, ?_⟩, ?_⟩
  · intro h
    obtain ⟨m, hm, ⟨d, hd, hready⟩, hpre⟩ := CheckReadyReplicas_loop_ready get name ns _ _ _ h
    refine ⟨m + 1, by omega, Nat.succ_pos m, ⟨d, by simpa using hd, hready⟩, ?_⟩
    intro j hj
    simpa using hpre j (by omega)
  · rintro ⟨k, hk, hfirst⟩
    rw [hrun k hk hfirst]
  · intro k hk hfirst
    rw [hrun k hk hfirst]
    exact countFetches_fetchEvents ns name k

/-- Witness of the amended C7: two desired replicas, none ready at the first two fetches,
both ready at the third; with `retryCount = 3` the call returns a nil error
after exactly three fetches. -/
theorem CheckReadyReplicas_ready_iff_witness :
    (CheckReadyReplicas (getReadyAfter 2) "nginx" "k8s-sec-check" 3).result = .returned none ∧
      countFetches (CheckReadyReplicas (getReadyAfter 2) "nginx" "k8s-sec-check" 3).trace = 3 :=
  have hfirst : FirstReadyAt (getReadyAfter 2) "nginx" "k8s-sec-check" 3 :=
    ⟨by decide, ⟨⟨⟨some 2⟩, ⟨2⟩⟩, by simp [getReadyAfter], rfl⟩, fun j hj => by
      have hj2 : j < 2 := by omega
      exact ⟨⟨⟨some 2⟩, ⟨0⟩⟩, by simp [getReadyAfter, hj2], 2, rfl, by decide⟩⟩
  ⟨(CheckReadyReplicas_ready_iff (getReadyAfter 2) "nginx" "k8s-sec-check" 3).1.mpr
      ⟨3, by decide, hfirst⟩,
    (CheckReadyReplicas_ready_iff (getReadyAfter 2) "nginx" "k8s-sec-check" 3).2 3
      (by decide) hfirst⟩

/-- C8, as stated, fails: every fetch succeeds and shows a deployment whose
desired replica count is nil, so no fetch shows ready replicas equal to desired
replicas; with `retryCount = 3` the call does not make four fetches and return
the exhaustion error, it panics on the nil pointer after one fetch. -/
theorem CheckReadyReplicas_nil_replicas_not_exhausted :
    ¬ ReadyEqualsDesired nilReplicasDeployment ∧
      getNilReplicas 0 "k8s-sec-check" "nginx" = .ok nilReplicasDeployment ∧
      (CheckReadyReplicas getNilReplicas "nginx" "k8s-sec-check" 3).result = .panicked ∧
      countFetches (CheckReadyReplicas getNilReplicas "nginx" "k8s-sec-check" 3).trace = 1 ∧
      (CheckReadyReplicas getNilReplicas "nginx" "k8s-sec-check" 3).result ≠
        .returned (some (errorsNew
          ("CheckReadyReplicas status failed even after multiple retryCount for deployment " ++
            "nginx"))) :=
  ⟨by unfold ReadyEqualsDesired; decide, rfl, by decide, by decide, by decide⟩

/-- C8, amended.  Readiness exhaustion: for `retryCount ≥ 0`, when every fetch
succeeds and shows a desired replica count that is set and that the
ready-replica count does not equal, `CheckReadyReplicas` performs exactly
`retryCount + 1` fetches and returns the error "CheckReadyReplicas status failed
even after multiple retryCount for deployment " followed by the deployment
name; and when the fetch of attempt `k` fails with `e`, every earlier fetch
having succeeded and shown such a deployment, the call ends with that fetch, its
`k`-th, and returns the error "Failed to get deployment: " followed by the
message of `e`. -/
theorem CheckReadyReplicas_exhausted_or_failed (get : Nat → String → String → GetResult)
    (name ns : String) (retryCount : Int) (h0 : 0 ≤ retryCount) :
    ((∀ i, ∃ d, get i ns name = .ok d ∧ NotYetReady d) →
      (CheckReadyReplicas get name ns retryCount).result =
          .returned (some (errorsNew
            ("CheckReadyReplicas status failed even after multiple retryCount for deployment " ++
              name))) ∧
        (countFetches (CheckReadyReplicas get name ns retryCount).trace : Int) = retryCount + 1) ∧
    (∀ (k : Nat) (e : GoError), 1 ≤ k → (k : Int) ≤ retryCount + 1 →
      (∀ j, j + 1 < k → ∃ d, get j ns name = .ok d ∧ NotYetReady d) →
      get (k - 1) ns name = .fail e →
      (CheckReadyReplicas get name ns retryCount).result =
          .returned (some (errorsNew ("Failed to get deployment: " ++ e.message))) ∧
        countFetches (CheckReadyReplicas get name ns retryCount).trace = k ∧
        (CheckReadyReplicas get name ns retryCount).trace.getLast? =
          some (Event.getDeployment ns name)) := by
  refine ⟨?_, ?_⟩
  · intro h
    rw [CheckReadyReplicas_run_exhausted get name ns retryCount (fun j _ => h j)]
    refine ⟨rfl, ?_⟩
    rw [countFetches_fetchEvents]
    omega
  · intro k e hk1 hk hpre hfail
    rw [CheckReadyReplicas_run_failed get name ns retryCount (k - 1) e (by omega)
      (fun j hj => hpre j (by omega)) hfail]
    refine ⟨rfl, ?_, by simp⟩
    rw [countFetches_append, countFetches_fetchEvents]
    simp [countFetches]
    omega

/-- Witness of the amended C8: with `retryCount = 3`, a deployment that never gets ready
costs four fetches and ends in the exhaustion error, and a fetch that fails on
the second attempt ends the call after two fetches. -/
theorem CheckReadyReplicas_exhausted_or_failed_witness :
    ((CheckReadyReplicas getNeverReady "nginx" "k8s-sec-check" 3).result =
        .returned (some (errorsNew
          ("CheckReadyReplicas status failed even after multiple retryCount for deployment " ++
            "nginx"))) ∧
      (countFetches (CheckReadyReplicas getNeverReady "nginx" "k8s-sec-check" 3).trace : Int) =
        3 + 1) ∧
    ((CheckReadyReplicas (getFailsSecond connectionRefused) "nginx" "k8s-sec-check" 3).result =
        .returned (some (errorsNew ("Failed to get deployment: " ++ connectionRefused.message))) ∧
      countFetches
        (CheckReadyReplicas (getFailsSecond connectionRefused) "nginx" "k8s-sec-check" 3).trace = 2 ∧
      (CheckReadyReplicas (getFailsSecond connectionRefused) "nginx" "k8s-sec-check" 3).trace.getLast? =
        some (Event.getDeployment "k8s-sec-check" "nginx")) :=
  ⟨(CheckReadyReplicas_exhausted_or_failed getNeverReady "nginx" "k8s-sec-check" 3
      (by decide)).1 (fun _ => ⟨⟨⟨some 2⟩, ⟨0⟩⟩, rfl, 2, rfl, by decide⟩),
    (CheckReadyReplicas_exhausted_or_failed (getFailsSecond connectionRefused) "nginx"
      "k8s-sec-check" 3 (by decide)).2 2 connectionRefused (by decide) (by decide)
      (fun j hj => by
        have hj0 : j = 0 := by omega
        subst hj0
        exact ⟨⟨⟨some 2⟩, ⟨0⟩⟩, rfl, 2, rfl, by decide⟩)
      rfl⟩

/-! ## Blocking time and the two failure results -/

/-- C9, as stated, fails: a gateway that never finds a replica set makes
`GetStatusCondition` sleep four times, 120 seconds in all, more than
`retryCount` times 30 seconds; and `CheckReadyReplicas` with `retryCount = 3`
sleeps four times for a deployment that never gets ready. -/
theorem poll_sleeps_exceed_retry_budget :
    countSleeps (GetStatusCondition listAlwaysEmpty "k8s-sec-check" "nginx").trace = 4 ∧
      sleepSeconds (GetStatusCondition listAlwaysEmpty "k8s-sec-check" "nginx").trace = 120 ∧
      ¬ sleepSeconds (GetStatusCondition listAlwaysEmpty "k8s-sec-check" "nginx").trace ≤
        GetStatusCondition.retryCount * 30 ∧
      ¬ countSleeps (CheckReadyReplicas getNeverReady "nginx" "k8s-sec-check" 3).trace ≤ 3 := by
  decide

/-- C9, amended.  Bounded blocking time: for every gateway behaviour a poll
sleeps at most once per attempt, 30 seconds each time, so `GetStatusCondition`
performs at most `retryCount + 1 = 4` sleeps (at most 120 seconds in total) and
`CheckReadyReplicas` at most `retryCount + 1` sleeps of 30 seconds (none when
`retryCount` is negative). -/
theorem poll_sleep_bound (list : Nat → String → String → ListResult)
    (get : Nat → String → String → GetResult) (ns name : String) (retryCount : Int) :
    countSleeps (GetStatusCondition list ns name).trace ≤ GetStatusCondition.retryCount + 1 ∧
      sleepSeconds (GetStatusCondition list ns name).trace ≤ 120 ∧
      countSleeps (CheckReadyReplicas get name ns retryCount).trace ≤ (retryCount + 1).toNat ∧
      sleepSeconds (CheckReadyReplicas get name ns retryCount).trace ≤
        30 * (retryCount + 1).toNat := by
  have hg := GetStatusCondition_loop_sleeps list ns name (GetStatusCondition.retryCount + 1) 0 []
  have hc := CheckReadyReplicas_loop_sleeps get name ns (retryCount + 1).toNat 0 []
  simp only [countSleeps, sleepSeconds, List.filter_nil, List.length_nil, Nat.zero_add] at hg hc
  refine ⟨hg.1, ?_, hc.1, hc.2⟩
  have := hg.2
  simp only [GetStatusCondition.retryCount] at this
  exact this

/-- C10, as stated, fails: a gateway error whose text is the exhaustion text
(and a nil list) gives the same result as an exhausted retry budget. -/
theorem GetStatusCondition_failure_like_exhaustion :
    (GetStatusCondition (listFailsFirst (errorsNew GetStatusCondition.exhaustedMessage))
        "k8s-sec-check" "nginx").result =
      (GetStatusCondition listAlwaysEmpty "k8s-sec-check" "nginx").result := by
  decide

/-- C10, amended.  For every gateway error whose message is not the exhaustion
text, the result `GetStatusCondition` returns when a query fails with that error
differs from the result it returns when the retry budget is exhausted, and so do
the messages of the two returned errors. -/
theorem GetStatusCondition_exhaustion_distinct
    (listF listE : Nat → String → String → ListResult) (ns name : String) (k : Nat)
    (rsList : Option ReplicaSetList) (err : GoError)
    (hk1 : 1 ≤ k) (hk : k ≤ GetStatusCondition.retryCount + 1)
    (hpre : ∀ j, j + 1 < k →
      ∃ l', listF j ns ("k8s-app=" ++ name) = .ok l' ∧ ¬ ConditionBearing l')
    (hkth : listF (k - 1) ns ("k8s-app=" ++ name) = .fail rsList err)
    (hex : ∀ i, ∃ l, listE i ns ("k8s-app=" ++ name) = .ok l ∧ ¬ ConditionBearing l)
    (hmsg : err.message ≠ "failed to fetch the replicaset status condition after multiple attempts") :
    (GetStatusCondition listF ns name).result ≠ (GetStatusCondition listE ns name).result ∧
      (GetStatusCondition listF ns name).result.2.map GoError.message ≠
        (GetStatusCondition listE ns name).result.2.map GoError.message := by
  rw [GetStatusCondition_run_failed listF ns name (k - 1) rsList err (by omega)
      (fun j hj => hpre j (by omega)) hkth,
    GetStatusCondition_run_exhausted listE ns name (fun j _ => hex j)]
  have hne : Option.map GoError.message (some err) ≠
      Option.map GoError.message (some (errorsNew GetStatusCondition.exhaustedMessage)) := by
    intro h
    simp only [Option.map_some', Option.some.injEq] at h
    exact hmsg h
  refine ⟨?_, hne⟩
  intro h
  apply hne
  have h2 := congrArg Prod.snd h
  simp only at h2
  rw [h2]

/-- Witness of the amended C10: a refused connection on the first query against
a gateway that never finds a replica set. -/
theorem GetStatusCondition_exhaustion_distinct_witness :
    (GetStatusCondition (listFailsFirst connectionRefused) "k8s-sec-check" "nginx").result ≠
        (GetStatusCondition listAlwaysEmpty "k8s-sec-check" "nginx").result ∧
      (GetStatusCondition (listFailsFirst connectionRefused) "k8s-sec-check"
          "nginx").result.2.map GoError.message ≠
        (GetStatusCondition listAlwaysEmpty "k8s-sec-check" "nginx").result.2.map
          GoError.message :=
  GetStatusCondition_exhaustion_distinct (listFailsFirst connectionRefused) listAlwaysEmpty
    "k8s-sec-check" "nginx" 1 none connectionRefused (by decide) (by decide)
    (fun j hj => absurd hj (by omega)) (by simp [listFailsFirst])
    (fun _ => ⟨⟨[]⟩, rfl, by simp [ConditionBearing]⟩) (by decide)

/-! ## Process configuration -/

/-- C15. Default and override of the process configuration: for every
environment, `getTargetNamespace` returns the value of `KUBE_NAMESPACE` when it
is set to a non-empty string and "k8s-sec-check" otherwise, `getTargetServiceAccount`
does the same with `KUBE_SERVICEACCOUNT`, and neither returns the empty string. -/
theorem target_configuration_default_and_override (env : String → Option String) :
    (∀ v, env "KUBE_NAMESPACE" = some v → v ≠ "" → getTargetNamespace env = v) ∧
    ((env "KUBE_NAMESPACE" = none ∨ env "KUBE_NAMESPACE" = some "") →
      getTargetNamespace env = "k8s-sec-check") ∧
    (∀ v, env "KUBE_SERVICEACCOUNT" = some v → v ≠ "" → getTargetServiceAccount env = v) ∧
    ((env "KUBE_SERVICEACCOUNT" = none ∨ env "KUBE_SERVICEACCOUNT" = some "") →
      getTargetServiceAccount env = "k8s-sec-check") ∧
    getTargetNamespace env ≠ "" ∧ getTargetServiceAccount env ≠ "" := by
  refine ⟨?_, ?_, ?_, ?_, ?_, ?_⟩
  · intro v hv hne
    simp [getTargetNamespace, Getenv, hv, hne]
  · rintro (h | h) <;> simp [getTargetNamespace, Getenv, h, defaultNamespace]
  · intro v hv hne
    simp [getTargetServiceAccount, Getenv, hv, hne]
  · rintro (h | h) <;> simp [getTargetServiceAccount, Getenv, h, defaultServiceAccount]
  · unfold getTargetNamespace
    by_cases h : Getenv env "KUBE_NAMESPACE" = ""
    · simp [h, defaultNamespace]
    · simp [h]
  · unfold getTargetServiceAccount
    by_cases h : Getenv env "KUBE_SERVICEACCOUNT" = ""
    · simp [h, defaultServiceAccount]
    · simp [h]

/-- Witness of C15: with only `KUBE_NAMESPACE` set, the namespace is the value
set and the service account is the default. -/
theorem target_configuration_default_and_override_witness :
    getTargetNamespace envWithNamespace = "security-checks" ∧
      getTargetServiceAccount envWithNamespace = "k8s-sec-check" :=
  ⟨(target_configuration_default_and_override envWithNamespace).1 "security-checks"
      (by decide) (by decide),
    (target_configuration_default_and_override envWithNamespace).2.2.2.1
      (Or.inl (by decide))⟩

/-! ## The condition test `IsPrivilegedContainerCreated` -/

theorem conditionTest_iff (statusReason statusCondition : String) (cond : ReplicaSetCondition) :
    (cond.Reason == statusReason && cond.Type_ == ReplicaSetReplicaFailure &&
        stringsContains cond.Message statusCondition) = true ↔
      (cond.Reason = statusReason ∧ cond.Type_ = "ReplicaFailure" ∧
        statusCondition.data <:+: cond.Message.data) := by
  simp [stringsContains, ReplicaSetReplicaFailure, and_assoc]

theorem IsPrivilegedContainerCreated_conditions_cases (statusReason statusCondition : String)
    (conds : List ReplicaSetCondition) :
    (IsPrivilegedContainerCreated.conditions statusReason statusCondition conds = some false ∧
        ∃ cond ∈ conds, cond.Reason = statusReason ∧ cond.Type_ = "ReplicaFailure" ∧
          statusCondition.data <:+: cond.Message.data) ∨
      (IsPrivilegedContainerCreated.conditions statusReason statusCondition conds = none ∧
        ¬ ∃ cond ∈ conds, cond.Reason = statusReason ∧ cond.Type_ = "ReplicaFailure" ∧
          statusCondition.data <:+: cond.Message.data) := by
  induction conds with
  | nil => right; simp [IsPrivilegedContainerCreated.conditions]
  | cons cond rest ih =>
    unfold IsPrivilegedContainerCreated.conditions
    by_cases hb : (cond.Reason == statusReason && cond.Type_ == ReplicaSetReplicaFailure &&
        stringsContains cond.Message statusCondition) = true
    · left
      rw [if_pos hb]
      exact ⟨rfl, cond, List.mem_cons_self _ _, (conditionTest_iff _ _ _).mp hb⟩
    · rw [if_neg hb]
      have hn := mt (conditionTest_iff statusReason statusCondition cond).mpr hb
      rcases ih with ⟨h, c, hc, hp⟩ | ⟨h, hne⟩
      · left; exact ⟨h, c, List.mem_cons_of_mem _ hc, hp⟩
      · right
        refine ⟨h, ?_⟩
        rintro ⟨c, hc, hp⟩
        rcases List.mem_cons.mp hc with rfl | hc
        · exact hn hp
        · exact hne ⟨c, hc, hp⟩

theorem IsPrivilegedContainerCreated_items_cases (statusReason statusCondition : String)
    (items : List ReplicaSet) :
    (IsPrivilegedContainerCreated.items statusReason statusCondition items = some false ∧
        ∃ rs ∈ items, ∃ cond ∈ rs.Status.Conditions, cond.Reason = statusReason ∧
          cond.Type_ = "ReplicaFailure" ∧ statusCondition.data <:+: cond.Message.data) ∨
      (IsPrivilegedContainerCreated.items statusReason statusCondition items = none ∧
        ¬ ∃ rs ∈ items, ∃ cond ∈ rs.Status.Conditions, cond.Reason = statusReason ∧
          cond.Type_ = "ReplicaFailure" ∧ statusCondition.data <:+: cond.Message.data) := by
  induction items with
  | nil => right; simp [IsPrivilegedContainerCreated.items]
  | cons rs rest ih =>
    unfold IsPrivilegedContainerCreated.items
    rcases IsPrivilegedContainerCreated_conditions_cases statusReason statusCondition
      rs.Status.Conditions with ⟨h, hex⟩ | ⟨h, hne⟩
    · left
      rw [h]
      exact ⟨rfl, rs, List.mem_cons_self _ _, hex⟩
    · rw [h]
      rcases ih with ⟨h', r, hr, hp⟩ | ⟨h', hne'⟩
      · left; exact ⟨h', r, List.mem_cons_of_mem _ hr, hp⟩
      · right
        refine ⟨h', ?_⟩
        rintro ⟨r, hr, hp⟩
        rcases List.mem_cons.mp hr with rfl | hr
        · exact hne hp
        · exact hne' ⟨r, hr, hp⟩

theorem IsPrivilegedContainerCreated_conditions_status (statusReason statusCondition status : String)
    (conds : List ReplicaSetCondition) :
    IsPrivilegedContainerCreated.conditions statusReason statusCondition
        (conds.map fun c => ⟨c.Type_, status, c.Reason, c.Message⟩) =
      IsPrivilegedContainerCreated.conditions statusReason statusCondition conds := by
  induction conds with
  | nil => rfl
  | cons cond rest ih =>
    simp only [List.map_cons, IsPrivilegedContainerCreated.conditions, ih]

theorem IsPrivilegedContainerCreated_items_status (statusReason statusCondition status : String)
    (items : List ReplicaSet) :
    IsPrivilegedContainerCreated.items statusReason statusCondition
        (items.map fun rs =>
          ⟨rs.Name, ⟨rs.Status.Conditions.map fun c => ⟨c.Type_, status, c.Reason, c.Message⟩⟩⟩) =
      IsPrivilegedContainerCreated.items statusReason statusCondition items := by
  induction items with
  | nil => rfl
  | cons rs rest ih =>
    simp only [List.map_cons, IsPrivilegedContainerCreated.items, ih,
      IsPrivilegedContainerCreated_conditions_status]

/-- C13. `IsPrivilegedContainerCreated(rsList, statusReason, statusCondition)`
returns `false` exactly when some status condition of some replica set of the
list has `Reason` equal to `statusReason`, `Type` equal to `ReplicaFailure` and
a `Message` containing `statusCondition`; in every other case (an empty list
and replica sets without conditions included) it returns `true`; and the
`Status` field of the conditions has no influence on the result. -/
theorem IsPrivilegedContainerCreated_false_iff (rsList : ReplicaSetList)
    (statusReason statusCondition : String) :
    (IsPrivilegedContainerCreated (some rsList) statusReason statusCondition = .returned false ↔
      ∃ rs ∈ rsList.Items, ∃ cond ∈ rs.Status.Conditions, cond.Reason = statusReason ∧
        cond.Type_ = "ReplicaFailure" ∧ statusCondition.data <:+: cond.Message.data) ∧
    ((¬ ∃ rs ∈ rsList.Items, ∃ cond ∈ rs.Status.Conditions, cond.Reason = statusReason ∧
        cond.Type_ = "ReplicaFailure" ∧ statusCondition.data <:+: cond.Message.data) →
      IsPrivilegedContainerCreated (some rsList) statusReason statusCondition = .returned true) ∧
    (∀ status, IsPrivilegedContainerCreated (some (withConditionStatus status rsList))
        statusReason statusCondition =
      IsPrivilegedContainerCreated (some rsList) statusReason statusCondition) := by
  refine ⟨?_, ?_, ?_⟩
  · rcases IsPrivilegedContainerCreated_items_cases statusReason statusCondition
      rsList.Items with ⟨h, hex⟩ | ⟨h, hne⟩
    · have hv : IsPrivilegedContainerCreated (some rsList) statusReason statusCondition =
          .returned false := by
        simp only [IsPrivilegedContainerCreated, h]
      exact ⟨fun _ => hex, fun _ => hv⟩
    · have hv : IsPrivilegedContainerCreated (some rsList) statusReason statusCondition =
          .returned true := by
        simp only [IsPrivilegedContainerCreated, h]
      exact ⟨fun hf => by rw [hv] at hf; exact absurd hf (by decide),
        fun hex => absurd hex hne⟩
  · intro hne
    rcases IsPrivilegedContainerCreated_items_cases statusReason statusCondition
      rsList.Items with ⟨_, hex⟩ | ⟨h, _⟩
    · exact absurd hex hne
    · simp only [IsPrivilegedContainerCreated, h]
  · intro status
    simp only [IsPrivilegedContainerCreated, withConditionStatus,
      IsPrivilegedContainerCreated_items_status]

/-- Witness of C13: one replica set with the condition {FailedCreate,
ReplicaFailure, True, "... Privileged containers are not allowed"} checked
against "FailedCreate" and "Privileged containers are not allowed" yields
`false`; an empty list yields `true`. -/
theorem IsPrivilegedContainerCreated_false_iff_witness :
    IsPrivilegedContainerCreated (some ⟨[rejectedReplicaSet]⟩) "FailedCreate"
        "Privileged containers are not allowed" = .returned false ∧
      IsPrivilegedContainerCreated (some ⟨[]⟩) "FailedCreate"
        "Privileged containers are not allowed" = .returned true :=
  ⟨(IsPrivilegedContainerCreated_false_iff ⟨[rejectedReplicaSet]⟩ "FailedCreate"
      "Privileged containers are not allowed").1.mpr
      ⟨rejectedReplicaSet, List.mem_singleton.mpr rfl, rejectedCondition,
        List.mem_singleton.mpr rfl, rfl, rfl, by decide⟩,
    (IsPrivilegedContainerCreated_false_iff ⟨[]⟩ "FailedCreate"
      "Privileged containers are not allowed").2.1 (by simp)⟩

/-! ## Postcondition of the poller -/

/-- A nil error returned by the loop comes with a condition-bearing list. -/
theorem GetStatusCondition_loop_nil_error (list : Nat → String → String → ListResult)
    (ns name : String) :
    ∀ (left i : Nat) (tr : List Event),
      (GetStatusCondition.loop list ns name left i tr).result.2 = none →
      ∃ l, (GetStatusCondition.loop list ns name left i tr).result.1 = some l ∧
        ConditionBearing l := by
  intro left
  induction left with
  | zero => intro i tr h; simp [GetStatusCondition.loop] at h
  | succ left ih =>
    intro i tr
    simp only [GetStatusCondition.loop]
    cases hq : ReplicaSetsByLabel list i ("k8s-app=" ++ name) ns with
    | fail rsList err => intro h; simp at h
    | ok rsList =>
      dsimp only
      cases hc : hasStatusCondition rsList with
      | true =>
        rw [if_pos rfl]
        intro _
        exact ⟨rsList, rfl, (hasStatusCondition_iff rsList).mp hc⟩
      | false =>
        rw [if_neg Bool.false_ne_true]
        exact ih _ _

/-- A run of the loop that slept in every remaining iteration and returns an
error returns a nil list. -/
theorem GetStatusCondition_loop_all_attempts (list : Nat → String → String → ListResult)
    (ns name : String) :
    ∀ (left i : Nat) (tr : List Event),
      countSleeps (GetStatusCondition.loop list ns name left i tr).trace = countSleeps tr + left →
      (GetStatusCondition.loop list ns name left i tr).result.2 ≠ none →
      (GetStatusCondition.loop list ns name left i tr).result.1 = none := by
  intro left
  induction left with
  | zero => intro i tr _ _; simp [GetStatusCondition.loop]
  | succ left ih =>
    intro i tr
    simp only [GetStatusCondition.loop]
    have hc : countSleeps (tr ++ [Event.listReplicaSets ns ("k8s-app=" ++ name), Event.sleep 30]) =
        countSleeps tr + 1 := by
      rw [countSleeps_append]; simp [countSleeps]
    cases hq : ReplicaSetsByLabel list i ("k8s-app=" ++ name) ns with
    | fail rsList err =>
      dsimp only
      intro hs _
      rw [countSleeps_append] at hs
      simp [countSleeps] at hs
    | ok rsList =>
      dsimp only
      cases hcond : hasStatusCondition rsList with
      | true =>
        rw [if_pos rfl]
        intro _ hne
        exact absurd rfl hne
      | false =>
        rw [if_neg Bool.false_ne_true]
        intro hs hne
        exact ih _ _ (by rw [hs, hc]; omega) hne

/-- Every event of a run of the loop is an earlier event, a query for the
replica sets labelled `k8s-app=<name>` in the target namespace, or a sleep of 30
seconds. -/
theorem GetStatusCondition_loop_events (list : Nat → String → String → ListResult)
    (ns name : String) :
    ∀ (left i : Nat) (tr : List Event) (ev : Event),
      ev ∈ (GetStatusCondition.loop list ns name left i tr).trace →
      ev ∈ tr ∨ ev = Event.listReplicaSets ns ("k8s-app=" ++ name) ∨ ev = Event.sleep 30 := by
  intro left
  induction left with
  | zero => intro i tr ev h; exact Or.inl h
  | succ left ih =>
    intro i tr ev
    simp only [GetStatusCondition.loop]
    cases hq : ReplicaSetsByLabel list i ("k8s-app=" ++ name) ns with
    | fail rsList err =>
      dsimp only
      intro h
      rcases List.mem_append.mp h with h | h
      · exact Or.inl h
      · exact Or.inr (Or.inl (List.mem_singleton.mp h))
    | ok rsList =>
      dsimp only
      have hstep : ev ∈ tr ++ [Event.listReplicaSets ns ("k8s-app=" ++ name), Event.sleep 30] →
          ev ∈ tr ∨ ev = Event.listReplicaSets ns ("k8s-app=" ++ name) ∨ ev = Event.sleep 30 := by
        intro h
        rcases List.mem_append.mp h with h | h
        · exact Or.inl h
        · simp only [List.mem_cons, List.mem_singleton, List.not_mem_nil, or_false] at h
          exact Or.inr h
      cases hcond : hasStatusCondition rsList with
      | true => rw [if_pos rfl]; exact hstep
      | false =>
        rw [if_neg Bool.false_ne_true]
        intro h
        rcases ih _ _ ev h with h | h
        · exact hstep h
        · exact Or.inr h

/-- C19. Success postcondition of the poller: for every query behaviour, when
`GetStatusCondition` returns a nil error the returned list is not nil, has an
item at index 0, and that item has a status condition at index 0, so the
callers' accesses `Items[0]` and `Items[0].Status.Conditions[0]` after the error
check are within bounds; and when it returns an error after going through all
`retryCount + 1` attempts, the returned list is nil. -/
theorem GetStatusCondition_success_postcondition
    (list : Nat → String → String → ListResult) (ns name : String) :
    ((GetStatusCondition list ns name).result.2 = none →
      ∃ l rs cond, (GetStatusCondition list ns name).result.1 = some l ∧
        l.Items[0]? = some rs ∧ rs.Status.Conditions[0]? = some cond) ∧
    ((GetStatusCondition list ns name).result.2 ≠ none →
      countSleeps (GetStatusCondition list ns name).trace = GetStatusCondition.retryCount + 1 →
      (GetStatusCondition list ns name).result.1 = none) := by
  refine ⟨?_, ?_⟩
  · intro h
    obtain ⟨l, hl, rs, hrs, hne⟩ := GetStatusCondition_loop_nil_error list ns name _ _ _ h
    obtain ⟨cond, rest, hcond⟩ := List.exists_cons_of_ne_nil hne
    refine ⟨l, rs, cond, hl, ?_, ?_⟩
    · rw [← hrs]; cases l.Items <;> simp
    · rw [hcond]; simp
  · intro hne hs
    have hs' : countSleeps (GetStatusCondition.loop list ns name
        (GetStatusCondition.retryCount + 1) 0 []).trace =
        countSleeps [] + (GetStatusCondition.retryCount + 1) := by
      have h0 : countSleeps [] = 0 := rfl
      rw [h0, Nat.zero_add]
      exact hs
    exact GetStatusCondition_loop_all_attempts list ns name _ _ _ hs' hne

/-- Witness of C19: a match on the fourth attempt returns a list whose first
item has a first condition; a gateway that never finds a replica set returns a
nil list. -/
theorem GetStatusCondition_success_postcondition_witness :
    (∃ l rs cond,
        (GetStatusCondition listAfterThreeEmpty "k8s-sec-check" "nginx").result.1 = some l ∧
        l.Items[0]? = some rs ∧ rs.Status.Conditions[0]? = some cond) ∧
      (GetStatusCondition listAlwaysEmpty "k8s-sec-check" "nginx").result.1 = none :=
  ⟨(GetStatusCondition_success_postcondition listAfterThreeEmpty "k8s-sec-check" "nginx").1
      (by decide),
    (GetStatusCondition_success_postcondition listAlwaysEmpty "k8s-sec-check" "nginx").2
      (by decide) (by decide)⟩

/-! ## Creation, the label selector and the builders -/

theorem stringsContains_append_left (pre s substr : String)
    (h : stringsContains s substr = true) : stringsContains (pre ++ s) substr = true := by
  simp only [stringsContains, decide_eq_true_eq, String.data_append] at h ⊢
  exact h.trans (List.suffix_append pre.data s.data).isInfix

/-- C14. Error-based proof keeps the gateway's evidence: `CreatePod` and
`CreateDeployment` return a nil error exactly when the gateway's create call
succeeded; when the gateway rejects with an error of message `m` the returned
error has the message "Failed to create pod: " (respectively "Failed to create
deployment: ") followed by `m`, and it contains every fragment that `m`
contains. -/
theorem Create_error_keeps_evidence
    (createPod : String → Pod → Option GoError)
    (createDeployment : String → DeploymentManifest → Option GoError)
    (pod : Pod) (deployment : DeploymentManifest) (ns : String) :
    (CreatePod createPod pod ns = none ↔ createPod ns pod = none) ∧
    (∀ e, createPod ns pod = some e →
      CreatePod createPod pod ns = some (errorsNew ("Failed to create pod: " ++ e.message)) ∧
      ∀ f, stringsContains e.message f = true →
        ∃ r, CreatePod createPod pod ns = some r ∧ stringsContains r.message f = true) ∧
    (CreateDeployment createDeployment deployment ns = none ↔
      createDeployment ns deployment = none) ∧
    (∀ e, createDeployment ns deployment = some e →
      CreateDeployment createDeployment deployment ns =
        some (errorsNew ("Failed to create deployment: " ++ e.message)) ∧
      ∀ f, stringsContains e.message f = true →
        ∃ r, CreateDeployment createDeployment deployment ns = some r ∧
          stringsContains r.message f = true) := by
  refine ⟨?_, ?_, ?_, ?_⟩
  · cases h : createPod ns pod <;> simp [CreatePod, h]
  · intro e he
    have hr : CreatePod createPod pod ns =
        some (errorsNew ("Failed to create pod: " ++ e.message)) := by
      simp [CreatePod, he]
    exact ⟨hr, fun f hf => ⟨_, hr, stringsContains_append_left _ _ _ hf⟩⟩
  · cases h : createDeployment ns deployment <;> simp [CreateDeployment, h]
  · intro e he
    have hr : CreateDeployment createDeployment deployment ns =
        some (errorsNew ("Failed to create deployment: " ++ e.message)) := by
      simp [CreateDeployment, he]
    exact ⟨hr, fun f hf => ⟨_, hr, stringsContains_append_left _ _ _ hf⟩⟩

/-- Witness of C14: a pod rejected for asking for the host network; the
returned error is the wrapped one and still contains the fragment
"Host network is not allowed to be used". -/
theorem Create_error_keeps_evidence_witness :
    CreatePod (fun _ _ => some hostNetworkRejected) (privilegedPodScenarioPod "k8s-sec-check")
        "k8s-sec-check" =
        some (errorsNew ("Failed to create pod: " ++ hostNetworkRejected.message)) ∧
      ∃ r, CreatePod (fun _ _ => some hostNetworkRejected)
          (privilegedPodScenarioPod "k8s-sec-check") "k8s-sec-check" = some r ∧
        stringsContains r.message "Host network is not allowed to be used" = true :=
  ⟨((Create_error_keeps_evidence (fun _ _ => some hostNetworkRejected) (fun _ _ => none)
      (privilegedPodScenarioPod "k8s-sec-check")
      (GetNginxDeploymentSpec "k8s-sec-check" "nginx" 1 true) "k8s-sec-check").2.1
      hostNetworkRejected rfl).1,
    ((Create_error_keeps_evidence (fun _ _ => some hostNetworkRejected) (fun _ _ => none)
      (privilegedPodScenarioPod "k8s-sec-check")
      (GetNginxDeploymentSpec "k8s-sec-check" "nginx" 1 true) "k8s-sec-check").2.1
      hostNetworkRejected rfl).2 "Host network is not allowed to be used" (by decide)⟩

/-- C16. The poller selects the replica sets the builder labels: every query
`GetStatusCondition` issues for the deployment name `n` asks, in the target
namespace, for the label selector "k8s-app=" followed by `n`, and
`GetNginxDeploymentSpec(ns, n, r, p)` sets the selector's match labels and the
pod template's labels to the one entry `"k8s-app": n`, whose key and value are
the two sides of that selector. -/
theorem selector_matches_builder_label (list : Nat → String → String → ListResult)
    (TargetNamespace ns n : String) (r : Int) (p : Bool) :
    (∀ ns' sel, Event.listReplicaSets ns' sel ∈ (GetStatusCondition list TargetNamespace n).trace →
      ns' = TargetNamespace ∧ sel = "k8s-app=" ++ n) ∧
    (GetNginxDeploymentSpec ns n r p).Spec.Selector = some ⟨[("k8s-app", n)]⟩ ∧
    (GetNginxDeploymentSpec ns n r p).Spec.Template.ObjectMeta.Labels = [("k8s-app", n)] ∧
    "k8s-app=" ++ n = "k8s-app" ++ "=" ++ n := by
  refine ⟨?_, rfl, rfl, ?_⟩
  · intro ns' sel h
    rcases GetStatusCondition_loop_events list TargetNamespace n _ _ _ _ h with h | h | h
    · simp at h
    · injection h with h1 h2
      exact ⟨h1, h2⟩
    · cases h
  · have : "k8s-app" ++ "=" = "k8s-app=" := by decide
    rw [this]

/-- C18, the scenario as written.  `GetNginxPodSpec(ns, name, p)` yields a pod
named `name` in namespace `ns` with exactly one container, whose `Privileged`
flag is `p`; the scenario "creating a pod with Privileged security context"
builds its pod with `p = false`, so the pod it submits, with host network, host
PID and host IPC set, has its single container's `Privileged` flag equal to
`false`. -/
theorem privilegedPodScenarioPod_flags (TargetNamespace : String) :
    (∀ ns name p, (GetNginxPodSpec ns name p).ObjectMeta.Name = name ∧
      (GetNginxPodSpec ns name p).ObjectMeta.Namespace = ns ∧
      (GetNginxPodSpec ns name p).Spec.Containers.length = 1 ∧
      privilegedFlags (GetNginxPodSpec ns name p).Spec = [some p]) ∧
    privilegedFlags (privilegedPodScenarioPod TargetNamespace).Spec = [some false] ∧
    (privilegedPodScenarioPod TargetNamespace).Spec.HostNetwork = true ∧
    (privilegedPodScenarioPod TargetNamespace).Spec.HostPID = true ∧
    (privilegedPodScenarioPod TargetNamespace).Spec.HostIPC = true :=
  ⟨fun _ _ _ => ⟨rfl, rfl, rfl, rfl⟩, rfl, rfl, rfl, rfl⟩

/-- Witness of C16: the fourth query of a run for the deployment "nginx" in the
namespace "k8s-sec-check" asks for "k8s-app=nginx" there. -/
theorem selector_matches_builder_label_witness :
    "k8s-sec-check" = "k8s-sec-check" ∧ "k8s-app=nginx" = "k8s-app=" ++ "nginx" :=
  (selector_matches_builder_label listAfterThreeEmpty "k8s-sec-check" "k8s-sec-check" "nginx"
    1 true).1 "k8s-sec-check" "k8s-app=nginx" (by decide)

/-! ## The assertions of the scenarios -/

theorem expectEqual_passed_iff (actual expected : String) (rest : Verdict) :
    expectEqual actual expected rest = .passed ↔ actual = expected ∧ rest = .passed := by
  unfold expectEqual
  by_cases h : actual = expected <;> simp [h]

theorem expectFragments_passed_iff (message : String) (fragments : List String) :
    expectFragments message fragments = .passed ↔
      ∀ f ∈ fragments, f.data <:+: message.data := by
  induction fragments with
  | nil => simp [expectFragments]
  | cons f rest ih =>
    simp only [expectFragments, expectContainSubstring, List.forall_mem_cons, ← ih]
    by_cases h : f.data <:+: message.data <;> simp [stringsContains, h]

theorem expectFragments_reported (message : String) (fragments : List String) :
    reportedFragments (expectFragments message fragments) =
      (missingFragments message fragments).take 1 := by
  induction fragments with
  | nil => rfl
  | cons f rest ih =>
    unfold missingFragments at ih ⊢
    simp only [expectFragments, expectContainSubstring, List.filter_cons]
    cases h : stringsContains message f with
    | true => simpa using ih
    | false => simp [reportedFragments]

theorem missingFragments_eq_nil_iff (message : String) (fragments : List String) :
    missingFragments message fragments = [] ↔ ∀ f ∈ fragments, f.data <:+: message.data := by
  simp [missingFragments, List.filter_eq_nil_iff, stringsContains]

set_option maxRecDepth 100000 in
theorem privilegedDeployAssertions_single (name : String) (cond : ReplicaSetCondition) :
    privilegedDeployAssertions ⟨[⟨name, ⟨[cond]⟩⟩]⟩ =
      expectEqual cond.Reason "FailedCreate" (expectEqual cond.Type_ "ReplicaFailure"
        (expectEqual cond.Status "True"
          (expectFragments cond.Message privilegedDeployFragments))) := by
  rfl

set_option maxRecDepth 100000 in
theorem capabilityDeployAssertions_single (name : String) (cond : ReplicaSetCondition) :
    capabilityDeployAssertions ⟨[⟨name, ⟨[cond]⟩⟩]⟩ =
      expectEqual cond.Reason "FailedCreate" (expectEqual cond.Type_ "ReplicaFailure"
        (expectEqual cond.Status "True"
          (expectFragments cond.Message capabilityDeployFragments))) := by
  rfl

/-- C11. Condition-based proof of rejection: the assertions the
privileged-deployment scenario makes on the polled list pass exactly when the
list holds one replica set, that replica set has one status condition, the
condition's reason is "FailedCreate", its type "ReplicaFailure", its status
"True", and its message contains each of the five expected fragments; and the
verdict depends only on which fragments the message contains, not on where or
in what order they occur in it. -/
theorem privilegedDeployAssertions_pass_iff (rsList : ReplicaSetList) :
    (privilegedDeployAssertions rsList = .passed ↔
      ∃ rs cond, rsList.Items = [rs] ∧ rs.Status.Conditions = [cond] ∧
        cond.Reason = "FailedCreate" ∧ cond.Type_ = "ReplicaFailure" ∧ cond.Status = "True" ∧
        ∀ f ∈ privilegedDeployFragments, f.data <:+: cond.Message.data) ∧
    (∀ name name' cond cond', rsList = ⟨[⟨name, ⟨[cond]⟩⟩]⟩ →
      cond'.Reason = cond.Reason → cond'.Type_ = cond.Type_ → cond'.Status = cond.Status →
      (∀ f ∈ privilegedDeployFragments,
        f.data <:+: cond.Message.data ↔ f.data <:+: cond'.Message.data) →
      (privilegedDeployAssertions rsList = .passed ↔
        privilegedDeployAssertions ⟨[⟨name', ⟨[cond']⟩⟩]⟩ = .passed)) := by
  have hsingle : ∀ (name : String) (cond : ReplicaSetCondition),
      privilegedDeployAssertions ⟨[⟨name, ⟨[cond]⟩⟩]⟩ = .passed ↔
        cond.Reason = "FailedCreate" ∧ cond.Type_ = "ReplicaFailure" ∧ cond.Status = "True" ∧
          ∀ f ∈ privilegedDeployFragments, f.data <:+: cond.Message.data := by
    intro name cond
    rw [privilegedDeployAssertions_single, expectEqual_passed_iff, expectEqual_passed_iff,
      expectEqual_passed_iff, expectFragments_passed_iff]
  refine ⟨?_, ?_⟩
  · obtain ⟨items⟩ := rsList
    rcases items with _ | ⟨⟨name, ⟨conds⟩⟩, _ | ⟨rs₂, rest⟩⟩
    · simp [privilegedDeployAssertions]
    · rcases conds with _ | ⟨cond, _ | ⟨cond₂, crest⟩⟩
      · simp [privilegedDeployAssertions]
      · rw [hsingle]
        constructor
        · intro h
          exact ⟨⟨name, ⟨[cond]⟩⟩, cond, rfl, rfl, h⟩
        · rintro ⟨rs, c, hrs, hc, h⟩
          simp only [List.cons.injEq, and_true] at hrs
          subst hrs
          simp only [List.cons.injEq, and_true] at hc
          subst hc
          exact h
      · simp [privilegedDeployAssertions]
    · simp [privilegedDeployAssertions]
  · rintro name name' cond cond' rfl hr ht hs hf
    rw [hsingle, hsingle, hr, ht, hs]
    constructor
    · rintro ⟨h1, h2, h3, h4⟩
      exact ⟨h1, h2, h3, fun f hfm => (hf f hfm).mp (h4 f hfm)⟩
    · rintro ⟨h1, h2, h3, h4⟩
      exact ⟨h1, h2, h3, fun f hfm => (hf f hfm).mpr (h4 f hfm)⟩

set_option maxRecDepth 100000 in
/-- Witness of C11: a single condition {FailedCreate, ReplicaFailure, True}
whose message holds the five fragments in an order other than the order of the
assertions passes. -/
theorem privilegedDeployAssertions_pass_iff_witness :
    privilegedDeployAssertions (rejectedWith privilegedMessage) = .passed :=
  (privilegedDeployAssertions_pass_iff (rejectedWith privilegedMessage)).1.mpr
    ⟨⟨"nginx-7c68b45968", ⟨[⟨"ReplicaFailure", "True", "FailedCreate", privilegedMessage⟩]⟩⟩,
      ⟨"ReplicaFailure", "True", "FailedCreate", privilegedMessage⟩, rfl, rfl, rfl, rfl, rfl,
      by decide⟩

set_option maxRecDepth 100000 in
/-- C12, as stated, fails: the message holds three of the seven fragments the
capabilities scenario expects; four are missing and the assertions report one
of them, the first in the order of the assertions. -/
theorem capabilityDeployAssertions_reports_one :
    (missingFragments capabilityMessage capabilityDeployFragments).length = 4 ∧
      reportedFragments (capabilityDeployAssertions (rejectedWith capabilityMessage)) =
        ["capabilities.add: Invalid value: \"NET_ADMIN\": capability may not be added"] := by
  decide

theorem reportedFragments_length_le_one (v : Verdict) :
    (reportedFragments v).length ≤ 1 := by
  cases v with
  | passed => simp [reportedFragments]
  | failed report => cases report <;> simp [reportedFragments]

theorem capabilityDeployAssertions_expected_triple (name : String)
    (cond : ReplicaSetCondition) (hr : cond.Reason = "FailedCreate")
    (ht : cond.Type_ = "ReplicaFailure") (hs : cond.Status = "True") :
    capabilityDeployAssertions ⟨[⟨name, ⟨[cond]⟩⟩]⟩ =
      expectFragments cond.Message capabilityDeployFragments := by
  rw [capabilityDeployAssertions_single, hr, ht, hs]
  simp [expectEqual]

theorem capabilityDeployAssertions_other_triple (name : String)
    (cond : ReplicaSetCondition)
    (h : ¬ (cond.Reason = "FailedCreate" ∧ cond.Type_ = "ReplicaFailure" ∧
      cond.Status = "True")) :
    capabilityDeployAssertions ⟨[⟨name, ⟨[cond]⟩⟩]⟩ ≠ .passed ∧
      reportedFragments (capabilityDeployAssertions ⟨[⟨name, ⟨[cond]⟩⟩]⟩) = [] := by
  rw [capabilityDeployAssertions_single]
  by_cases hr : cond.Reason = "FailedCreate"
  · by_cases ht : cond.Type_ = "ReplicaFailure"
    · by_cases hs : cond.Status = "True"
      · exact absurd ⟨hr, ht, hs⟩ h
      · simp [expectEqual, hr, ht, hs, reportedFragments]
    · simp [expectEqual, hr, ht, reportedFragments]
  · simp [expectEqual, hr, reportedFragments]

/-- C12, amended.  The rejection check of the capabilities scenario, for every
polled list: it reports at most one missing fragment; when the list holds
exactly one replica set with exactly one condition whose reason, type and
status are "FailedCreate", "ReplicaFailure" and "True", it passes exactly when
no expected fragment is missing from the message and otherwise stops at the
first fragment, in the order of its assertions, that is missing and reports
that one alone; in every other case it fails at an earlier assertion and
reports no fragment. -/
theorem capabilityDeployAssertions_reports_first_missing (rsList : ReplicaSetList) :
    (reportedFragments (capabilityDeployAssertions rsList)).length ≤ 1 ∧
    (∀ rs cond, rsList.Items = [rs] → rs.Status.Conditions = [cond] →
      cond.Reason = "FailedCreate" → cond.Type_ = "ReplicaFailure" → cond.Status = "True" →
      (capabilityDeployAssertions rsList = .passed ↔
        missingFragments cond.Message capabilityDeployFragments = []) ∧
      reportedFragments (capabilityDeployAssertions rsList) =
        (missingFragments cond.Message capabilityDeployFragments).take 1) ∧
    ((¬ ∃ rs cond, rsList.Items = [rs] ∧ rs.Status.Conditions = [cond] ∧
        cond.Reason = "FailedCreate" ∧ cond.Type_ = "ReplicaFailure" ∧ cond.Status = "True") →
      capabilityDeployAssertions rsList ≠ .passed ∧
        reportedFragments (capabilityDeployAssertions rsList) = []) := by
  refine ⟨reportedFragments_length_le_one _, ?_, ?_⟩
  · intro rs cond hitems hconds hr ht hs
    obtain ⟨items⟩ := rsList
    obtain ⟨name, ⟨conds⟩⟩ := rs
    simp only at hitems hconds
    subst hitems
    subst hconds
    rw [capabilityDeployAssertions_expected_triple name cond hr ht hs]
    exact ⟨by rw [expectFragments_passed_iff, missingFragments_eq_nil_iff],
      expectFragments_reported _ _⟩
  · intro hne
    obtain ⟨items⟩ := rsList
    rcases items with _ | ⟨⟨name, ⟨conds⟩⟩, _ | ⟨rs₂, rest⟩⟩
    · simp [capabilityDeployAssertions, reportedFragments]
    · rcases conds with _ | ⟨cond, _ | ⟨cond₂, crest⟩⟩
      · simp [capabilityDeployAssertions, reportedFragments]
      · exact capabilityDeployAssertions_other_triple name cond
          (fun h => hne ⟨⟨name, ⟨[cond]⟩⟩, cond, rfl, rfl, h⟩)
      · simp [capabilityDeployAssertions, reportedFragments]
    · simp [capabilityDeployAssertions, reportedFragments]

set_option maxRecDepth 100000 in
/-- Witness of the amended C12: with the expected triple and four fragments
missing, the one report is the first of them; with the status "False" the check
fails and reports no fragment. -/
theorem capabilityDeployAssertions_reports_first_missing_witness :
    reportedFragments (capabilityDeployAssertions (rejectedWith capabilityMessage)) =
        (missingFragments capabilityMessage capabilityDeployFragments).take 1 ∧
      (capabilityDeployAssertions (rejectedWithStatusFalse capabilityMessage) ≠ .passed ∧
        reportedFragments
          (capabilityDeployAssertions (rejectedWithStatusFalse capabilityMessage)) = []) :=
  ⟨((capabilityDeployAssertions_reports_first_missing (rejectedWith capabilityMessage)).2.1
      ⟨"nginx-7c68b45968", ⟨[⟨"ReplicaFailure", "True", "FailedCreate", capabilityMessage⟩]⟩⟩
      ⟨"ReplicaFailure", "True", "FailedCreate", capabilityMessage⟩ rfl rfl rfl rfl rfl).2,
    (capabilityDeployAssertions_reports_first_missing
      (rejectedWithStatusFalse capabilityMessage)).2.2 (by
        rintro ⟨rs, cond, hitems, hconds, _, _, hs⟩
        simp only [rejectedWithStatusFalse, List.cons.injEq, and_true] at hitems
        subst hitems
        simp only [List.cons.injEq, and_true] at hconds
        subst hconds
        exact absurd hs (by decide))⟩

/-! ## Teardown -/

/-- C17, as stated, fails: after a body that passed, the teardown of the
scenario "creating a pod" makes no delete call. -/
theorem podAfterEach_skips_delete_after_pass :
    podAfterEach (fun _ _ _ => none) "k8s-sec-check"
      ⟨false, "privileged_container_pod_test.go", 65⟩ = [] := by
  decide

/-- C17, amended.  In the four deployment scenarios the teardown calls
`DeleteDeployment` for the scenario's deployment whether the body passed or
failed; in the scenario "creating a pod" the teardown calls `DeletePod` exactly
when the body failed. -/
theorem teardown_delete_calls
    (deleteDeployment deletePod : String → String → DeleteOptions → Option GoError)
    (TargetNamespace : String) (desc : GinkgoTestDescription) :
    (∀ name ∈ scenarioDeploymentNames,
      TeardownEvent.deleteDeployment name TargetNamespace ∈
        deploymentAfterEach deleteDeployment name TargetNamespace desc) ∧
    (TeardownEvent.deletePod PodName TargetNamespace ∈
        podAfterEach deletePod TargetNamespace desc ↔ desc.Failed = true) := by
  refine ⟨fun name _ => List.mem_cons_self _ _, ?_⟩
  unfold podAfterEach
  cases hf : desc.Failed with
  | true => simp
  | false => simp

/-- Witness of the amended C17: after a failed body, the teardown of the
privileged-deployment scenario and the teardown of the pod scenario both make
their delete call. -/
theorem teardown_delete_calls_witness :
    TeardownEvent.deleteDeployment "nginx-privileged-container-deploy-test" "k8s-sec-check" ∈
        deploymentAfterEach (fun _ _ _ => none) "nginx-privileged-container-deploy-test"
          "k8s-sec-check" ⟨true, "privileged_container_deploy_test.go", 110⟩ ∧
      TeardownEvent.deletePod PodName "k8s-sec-check" ∈
        podAfterEach (fun _ _ _ => some notFoundError) "k8s-sec-check"
          ⟨true, "privileged_container_pod_test.go", 65⟩ :=
  ⟨(teardown_delete_calls (fun _ _ _ => none) (fun _ _ _ => some notFoundError) "k8s-sec-check"
      ⟨true, "privileged_container_deploy_test.go", 110⟩).1
      "nginx-privileged-container-deploy-test" (by decide),
    (teardown_delete_calls (fun _ _ _ => none) (fun _ _ _ => some notFoundError) "k8s-sec-check"
      ⟨true, "privileged_container_pod_test.go", 65⟩).2.mpr rfl⟩

end K8sSecCheck
